import Mathlib

/-!
Verification development for the Colateral-AI property-valuation system.

The development shallowly embeds the two core source modules:
  * core/calculation_engine.py - the valuation pipeline (pure arithmetic,
    floats modelled as rationals), and
  * core/agent.py - the dialogue state machine (slot map, asked order,
    message transcript), with Python dictionaries as insertion-ordered
    association lists and Python runtime errors as Option-failures.

Rate and mapping tables are loaded from data files by an external provider
(core/data_loader.py reads them from a data directory that is not part of
the core sources); the embedding takes them as explicit parameters.
-/

set_option linter.unusedVariables false

namespace Collateral

/-! ### Python-dict primitives: insertion-ordered association lists -/

/-- First binding of key `k`, like Python `d[k]` / `d.get(k)`. -/
def dget? [DecidableEq κ] : List (κ × α) → κ → Option α
  | [], _ => none
  | (k2, v) :: t, k => if k2 = k then some v else dget? t k

/-- Python `d.get(k, default)`. -/
def dgetD [DecidableEq κ] (l : List (κ × α)) (k : κ) (d : α) : α :=
  (dget? l k).getD d

/-- Python `k in d`. -/
def dmem [DecidableEq κ] (l : List (κ × α)) (k : κ) : Bool :=
  (dget? l k).isSome

/-- Python `d[k] = v`: update in place, else append (insertion order kept). -/
def dset [DecidableEq κ] : List (κ × α) → κ → α → List (κ × α)
  | [], k, v => [(k, v)]
  | (k2, w) :: t, k, v => if k2 = k then (k2, v) :: t else (k2, w) :: dset t k v

/-- Python `d.pop(k, None)`: drop the binding of `k` if present. -/
def dpop [DecidableEq κ] : List (κ × α) → κ → List (κ × α)
  | [], _ => []
  | (k2, w) :: t, k => if k2 = k then t else (k2, w) :: dpop t k

/-- Python `list.remove(x)`: drop the first occurrence. -/
def removeFirst [DecidableEq α] : List α → α → List α
  | [], _ => []
  | x :: t, s => if x = s then t else x :: removeFirst t s

/-- Order-preserving de-duplication with a seen-set accumulator
(the `seen`/`final` loop closing `current_required_slots`). -/
def dedupKeepAux [DecidableEq α] : List α → List α → List α
  | _, [] => []
  | seen, x :: t =>
    if x ∈ seen then dedupKeepAux seen t else x :: dedupKeepAux (x :: seen) t

def dedupKeep [DecidableEq α] (l : List α) : List α := dedupKeepAux [] l

/-! ### Python-string primitives -/

def strLower (s : String) : String := ⟨s.toList.map Char.toLower⟩

/-- Python `str.strip()` (whitespace at both ends). -/
def strTrim (s : String) : String :=
  ⟨((s.toList.dropWhile Char.isWhitespace).reverse.dropWhile Char.isWhitespace).reverse⟩

/-- Python `str.isdigit` restricted to ASCII digits (the only inputs the
program feeds it). -/
def isDigitStr (s : String) : Bool := !s.toList.isEmpty && s.toList.all Char.isDigit

def charsPrefix : List Char → List Char → Bool
  | [], _ => true
  | _ :: _, [] => false
  | a :: as, b :: bs => a = b && charsPrefix as bs

def charsInfix : List Char → List Char → Bool
  | needle, [] => charsPrefix needle []
  | needle, b :: t => charsPrefix needle (b :: t) || charsInfix needle t

/-- Python `sub in s` (substring containment). -/
def strContains (s sub : String) : Bool := charsInfix sub.toList s.toList

def strStartsWith (s pre : String) : Bool := charsPrefix pre.toList s.toList

def strDrop (s : String) (n : ℕ) : String := ⟨s.toList.drop n⟩

def digitsVal? : List Char → Option ℕ
  | [] => none
  | l => if l.all Char.isDigit then some (l.foldl (fun n c => 10 * n + (c.toNat - 48)) 0) else none

/-- Python `int(text)` on a decimal string: optional sign, digits,
surrounding whitespace. -/
def intParse? (s : String) : Option ℤ :=
  match (strTrim s).toList with
  | '-' :: rest => (digitsVal? rest).map (fun n => -(n : ℤ))
  | '+' :: rest => (digitsVal? rest).map (fun n => (n : ℤ))
  | l => (digitsVal? l).map (fun n => (n : ℤ))

def digitsListVal (l : List Char) : ℕ := l.foldl (fun n c => 10 * n + (c.toNat - 48)) 0

def splitDot : List Char → Option (List Char × List Char)
  | [] => some ([], [])
  | c :: t =>
    if c = '.' then if t.contains '.' then none else some ([], t)
    else (splitDot t).map (fun p => (c :: p.1, p.2))

/-- Python `float(text)` on plain decimal numerals (optional sign, digits
around at most one dot, surrounding whitespace); the exponent / inf / nan
forms, which the dialogue never produces, are out of the modelled subset. -/
def pyFloatParse? (s : String) : Option ℚ :=
  let core : List Char → Option ℚ := fun l =>
    match splitDot l with
    | none => none
    | some (ip, fp) =>
      if (ip ++ fp) = [] then none
      else if (ip ++ fp).all Char.isDigit then
        some ((digitsListVal ip : ℚ) + (digitsListVal fp : ℚ) / (10 : ℚ) ^ fp.length)
      else none
  match (strTrim s).toList with
  | '-' :: rest => (core rest).map (fun q => -q)
  | '+' :: rest => core rest
  | l => core l

/-- Truncation toward zero, Python `int(float)`. -/
def ratTrunc (q : ℚ) : ℤ := if 0 ≤ q then ⌊q⌋ else -⌊-q⌋

/-! ### calculation_engine.py : rate tables (provider-supplied data) -/

/-- One row of `building_rates_data`: the building type plus, per grade
name, the `{grade}_Min` / `{grade}_Max` column pair. -/
structure RateItem where
  buildingType : String
  gradeRates : List (String × (ℚ × ℚ))
  deriving Repr, DecidableEq

structure FuelStationRates where
  site_preparation : ℚ
  reinforced_concrete_forecourt : ℚ
  steel_canopy : ℚ
  pump_island : ℚ
  ugt_30m3 : ℚ
  ugt_50m3 : ℚ
  deriving Repr

structure CoffeeSiteRates where
  cherry_hopper : ℚ
  fermentation_tanks : ℚ
  washing_channels : ℚ
  coffee_drier : ℚ
  deriving Repr

structure GreenHouseRates where
  greenhouse_cover : ℚ
  in_farm_road : ℚ
  borehole : ℚ
  land_preparation : ℚ
  deriving Repr

/-- An area tier of the location table; `hi = none` models the data
loader's `float(\x27inf\x27)` upper bound. -/
structure AreaRange where
  lo : ℚ
  hi : Option ℚ
  deriving Repr, DecidableEq

def AreaRange.containsArea (r : AreaRange) (a : ℚ) : Bool :=
  decide (r.lo ≤ a) && (match r.hi with | none => true | some h => decide (a ≤ h))

abbrev LocTable :=
  List (String × List (String × List (String × List (AreaRange × ℚ))))

/-- The module-level tables of calculation_engine.py, returned by the data
loader (the data files live outside the core sources). -/
structure EngineData where
  building_rates_data : List RateItem
  component_percentages : List (String × List (String × ℚ))
  fuel_station_rates : FuelStationRates
  coffee_site_rates : CoffeeSiteRates
  all_location_data : LocTable
  minimum_completion_stages : List (String × ℚ)
  elevator_rates : List ((ℤ × ℤ) × ℚ)
  green_house_rates : GreenHouseRates
  material_grade_mapping : String → List (String × List (String × String))

/-! ### calculation_engine.py : the pipeline functions -/

/-- `get_building_grade_rate`: first row matching the building type; the
grade's Min/Max midpoint, falling back to the Average columns on a missing
grade column (a second missing column is an uncaught KeyError, `none`);
`0` when no row matches. -/
def get_building_grade_rate? (tbl : List RateItem) (building_type grade : String) :
    Option ℚ :=
  match tbl.find? (fun item => item.buildingType == building_type) with
  | none => some 0
  | some item =>
    match dget? item.gradeRates grade with
    | some mm => some ((mm.1 + mm.2) / 2)
    | none => (dget? item.gradeRates "Average").map (fun mm => (mm.1 + mm.2) / 2)

def quality_scores : List (String × ℚ) :=
  [("Excellent", 4), ("Good", 3), ("Average", 2), ("Economy", 1), ("Minimum", 0)]

/-- Score of one component: if the component has a mapping entry, the
first substring hit of the material text gives the grade's quality score
(unknown grade names default to 2, the `.get(grade, 2)`); `none` when the
component never matches and so is left out of the average. -/
def componentMatchScore? (mapping : List (String × List (String × String)))
    (component material : String) : Option ℚ :=
  (dget? mapping component).bind (fun subs =>
    (subs.find? (fun p => strContains material p.1)).map
      (fun p => dgetD quality_scores p.2 2))

/-- `suggest_grade_from_materials` (the category-specific mapping is passed
in place of the `get_mapping_by_category` data call). -/
def suggest_grade_from_materials (mapping : List (String × List (String × String)))
    (selected_materials : List (String × String)) : String :=
  let acc := selected_materials.foldl
    (fun (tc : ℚ × ℕ) p =>
      match componentMatchScore? mapping p.1 p.2 with
      | some sc => (tc.1 + sc, tc.2 + 1)
      | none => tc)
    (0, 0)
  if acc.2 = 0 then "Average"
  else
    let avg_score := acc.1 / (acc.2 : ℚ)
    if avg_score ≥ 3.5 then "Excellent"
    else if avg_score ≥ 2.5 then "Good"
    else if avg_score ≥ 1.5 then "Average"
    else if avg_score ≥ 0.5 then "Economy"
    else "Minimum"

/-- `calculate_under_construction_value` (deduction-percentage table rows
keyed by component, columns by bracket and grade bucket; missing columns
are a caught KeyError and contribute nothing). -/
def calculate_under_construction_value
    (component_percentages : List (String × List (String × ℚ)))
    (full_value : ℚ) (building_type grade : String)
    (incomplete_components : List String) : ℚ × ℚ :=
  let grade_map : List (String × String) :=
    [("Excellent", "Best"), ("Good", "Best"), ("Average", "Avg"),
     ("Economy", "Poor"), ("Minimum", "Poor")]
  let type_key :=
    if strContains building_type "Single Story" then "Single_Storey"
    else if strContains building_type "G+1" || strContains building_type "G+2" then "G1_G2"
    else if strContains building_type "G+3" || strContains building_type "G+4" then "G3_G4"
    else "G1_G2"
  let column_key := type_key ++ "_" ++ dgetD grade_map grade "Avg"
  let total_deduction_percent := incomplete_components.foldl
    (fun acc comp =>
      match dget? component_percentages comp with
      | some row =>
        match dget? row column_key with
        | some d => acc + d
        | none => acc
      | none => acc)
    0
  let completed_percent := 1 - total_deduction_percent
  (full_value * completed_percent, completed_percent)

/-- `calculate_location_value`: nested lookups with empty-dict defaults,
`3000 × area` when the grade table is entirely absent, the first matching
tier's rate times the area, `0` when no tier matches. -/
def calculate_location_value (all_location_data : LocTable)
    (town_category use_type plot_grade : String) (plot_area : ℚ) : ℚ :=
  let town_data := dgetD all_location_data town_category []
  let use_type_data := dgetD town_data use_type []
  let grade_table := dgetD use_type_data plot_grade []
  if grade_table = [] then 3000 * plot_area
  else
    match grade_table.find? (fun p => p.1.containsArea plot_area) with
    | some p => p.2 * plot_area
    | none => 0

/-- `calculate_location_value_limit`: note the middle branch tests
`2001 <= plot_area <= 10000`, leaving the open interval (2000, 2001) to
the final `else`. -/
def calculate_location_value_limit (ccw plot_area : ℚ) : ℚ :=
  if ccw = 0 then 0
  else if plot_area ≤ 2000 then 3.0 * ccw
  else if 2001 ≤ plot_area ∧ plot_area ≤ 10000 then
    (3.5 * ccw) - (ccw * plot_area / 4000)
  else 1.0 * ccw

/-- `calculate_apartment_cost`. -/
def calculate_apartment_cost (base_cost : ℚ) (floor_number : ℤ) : ℚ :=
  let deduction : ℚ :=
    if floor_number = 1 then 0.025
    else if floor_number > 1 then 0.025 - (0.015 * ((floor_number : ℚ) - 1))
    else 0
  let final_deduction := max (-0.10) deduction
  base_cost * (1 - final_deduction)

def calculate_fuel_station_value (rates : FuelStationRates)
    (components : List (String × ℚ)) : ℚ :=
  dgetD components "site_preparation_area" 0 * rates.site_preparation
  + dgetD components "forecourt_area" 0 * rates.reinforced_concrete_forecourt
  + dgetD components "canopy_area" 0 * rates.steel_canopy
  + dgetD components "num_pump_islands" 0 * rates.pump_island
  + dgetD components "num_ugt_30m3" 0 * rates.ugt_30m3
  + dgetD components "num_ugt_50m3" 0 * rates.ugt_50m3

def calculate_coffee_site_value (rates : CoffeeSiteRates)
    (components : List (String × ℚ)) : ℚ :=
  dgetD components "cherry_hopper_area" 0 * rates.cherry_hopper
  + dgetD components "fermentation_tanks_area" 0 * rates.fermentation_tanks
  + dgetD components "washing_channels_length" 0 * rates.washing_channels
  + dgetD components "coffee_drier_area" 0 * rates.coffee_drier

def calculate_green_house_value (rates : GreenHouseRates)
    (components : List (String × ℚ)) : ℚ :=
  dgetD components "greenhouse_area" 0 * rates.greenhouse_cover
  + dgetD components "in_farm_road_km" 0 * rates.in_farm_road
  + dgetD components "borehole_depth" 0 * rates.borehole
  + dgetD components "land_preparation_area" 0 * rates.land_preparation

/-! ### calculation_engine.py : run_full_valuation -/

/-- One `buildings` entry of the valuation payload; `none` models an
absent dictionary key (the engine reads every field through `.get` with a
default, except `category` at the apartment plot-scaling step). -/
structure Building where
  name : Option String := none
  category : Option String := none
  length : Option ℚ := none
  width : Option ℚ := none
  num_floors : Option ℤ := none
  has_basement : Option Bool := none
  is_under_construction : Option Bool := none
  incomplete_components : Option (List String) := none
  selected_materials : Option (List (String × String)) := none
  confirmed_grade : Option String := none
  specialized_components : List (String × ℚ) := []
  deriving Repr

structure PropertyDetails where
  plot_area : Option ℚ := none
  prop_town : Option String := none
  gen_use : Option String := none
  plot_grade : Option String := none
  deriving Repr

structure SpecialItems where
  has_elevator : Option Bool := none
  elevator_stops : Option ℤ := none
  deriving Repr

structure OtherCosts where
  fence_percent : Option ℚ := none
  septic_percent : Option ℚ := none
  external_works_percent : Option ℚ := none
  water_tank_cost : Option ℚ := none
  consultancy_percent : Option ℚ := none
  deriving Repr

structure FinancialFactors where
  mcf : Option ℚ := none
  pef : Option ℚ := none
  deriving Repr

structure ValuationData where
  buildings : List Building := []
  property_details : PropertyDetails := {}
  special_items : SpecialItems := {}
  other_costs : OtherCosts := {}
  financial_factors : FinancialFactors := {}
  remarks : Option String := none
  deriving Repr

def generic_categories : List String :=
  ["Higher Villa", "Multi-Story Building", "MPH & Factory Building",
   "Apartment / Condominium"]

/-- Rate bracket and policy-check type from category and floor count
(run_full_valuation lines 167-178). -/
def bracketFor (category : String) (num_floors : ℤ) : String × String :=
  if category = "Higher Villa" then
    ("Single Story Building (higher Villa)", "Higher Villa")
  else if 1 ≤ num_floors ∧ num_floors ≤ 3 then ("G+1 and G+2", "G+1-3")
  else if 4 ≤ num_floors then ("G+3 and G+4", "G+4 & above")
  else ("Single Story Building (higher Villa)", "Higher Villa")

/-- Building area: `specialized_components["total_building_area"]` when
present, else `length × width` with 0 defaults (lines 154-161). -/
def resolvedArea (b : Building) : ℚ :=
  match dget? b.specialized_components "total_building_area" with
  | some a => a
  | none => b.length.getD 0 * b.width.getD 0

/-- Grade used for rating: `confirmed_grade or suggested` (Python `or`:
an absent or empty confirmed grade falls back to the suggestion). -/
def resolvedGrade (E : EngineData) (b : Building) (category : String) : String :=
  let suggested := suggest_grade_from_materials (E.material_grade_mapping category)
    (b.selected_materials.getD [])
  match b.confirmed_grade with
  | some g => if g = "" then suggested else g
  | none => suggested

/-- Full replacement cost of a generic-category building
(run_full_valuation lines 163-188): area × grade-rate midpoint × floor
multiplier, then ×1.25 with a basement. -/
def fullReplacementCost? (E : EngineData) (b : Building) : Option ℚ :=
  let category := b.category.getD "Multi-Story Building"
  let num_floors := b.num_floors.getD 1
  let grade := resolvedGrade E b category
  (get_building_grade_rate? E.building_rates_data (bracketFor category num_floors).1
      grade).map (fun rate =>
    let frc := resolvedArea b * rate *
      (if category ≠ "Apartment / Condominium" then (num_floors : ℚ) + 1 else 1)
    if b.has_basement.getD false then frc * 1.25 else frc)

/-- The under-completion warning text (numeric display formatting of the
Python f-string is abstracted to plain `toString`). -/
def underCompletionWarning (name : String) (pct minc : ℚ) : String :=
  "Warning: Building " ++ name ++ " is only " ++ toString pct ++
  " complete, which is below the required minimum of " ++ toString minc ++
  " for a loan."

/-- Cost, suggested-grade entries and warnings of one `buildings` entry
(the body of run_full_valuation's building loop, lines 148-218). A
building with a present but unrecognized category takes none of the
branches and keeps `building_cost = 0`. -/
def buildingInfo? (E : EngineData) (i : ℕ) (b : Building) :
    Option (ℚ × List (String × String) × List String) :=
  let category := b.category.getD "Multi-Story Building"
  if category ∈ generic_categories then
    let num_floors := b.num_floors.getD 1
    let bracket := bracketFor category num_floors
    let suggested := suggest_grade_from_materials (E.material_grade_mapping category)
      (b.selected_materials.getD [])
    let label := "Building " ++ toString (i + 1) ++ " (" ++ b.name.getD "None" ++ ")"
    let grade := resolvedGrade E b category
    match fullReplacementCost? E b with
    | none => none
    | some frc =>
      let costWarnings :=
        if b.is_under_construction.getD false then
          let cp := calculate_under_construction_value E.component_percentages frc
            bracket.1 grade (b.incomplete_components.getD [])
          let min_completion := dgetD E.minimum_completion_stages bracket.2 0
          (cp.1,
            if cp.2 < min_completion then
              [underCompletionWarning (b.name.getD "None") cp.2 min_completion]
            else [])
        else (frc, [])
      let cost :=
        if category = "Apartment / Condominium" then
          calculate_apartment_cost costWarnings.1 num_floors
        else costWarnings.1
      some (cost, [(label, suggested)], costWarnings.2)
  else if category = "Fuel Station" then
    some (calculate_fuel_station_value E.fuel_station_rates b.specialized_components, [], [])
  else if category = "Coffee Washing Site" then
    some (calculate_coffee_site_value E.coffee_site_rates b.specialized_components, [], [])
  else if category = "Green House" then
    some (calculate_green_house_value E.green_house_rates b.specialized_components, [], [])
  else
    some (0, [], [])

/-- Python `min(elevator_rates.keys(), key=...)`: the first key with the
minimal stop distance under iteration order; `none` on an empty table. -/
def closestElevatorKey? (rates : List ((ℤ × ℤ) × ℚ)) (stops : ℤ) :
    Option (ℤ × ℤ) :=
  match rates with
  | [] => none
  | (k, _) :: t =>
    some (t.foldl (fun best p =>
      if |p.1.2 - stops| < |best.2 - stops| then p.1 else best) k)

/-- Plot area after the apartment pre-scaling of lines 231-237; the
`['category']` subscript makes an absent category key a KeyError. -/
def scaledPlotArea? (vd : ValuationData) : Option ℚ := do
  let b0 ← vd.buildings.head?
  let c0 ← b0.category
  let plot_area := vd.property_details.plot_area.getD 0
  if c0 = "Apartment / Condominium" then
    let grade := b0.confirmed_grade.getD "Average"
    let factor : ℚ := if grade = "Excellent" ∨ grade = "Good" then 0.8 else 0.4
    return plot_area * factor
  else
    return plot_area

structure VResult where
  total_building_cost : ℚ
  total_other_costs : ℚ
  calculated_location_value : ℚ
  location_value_limit : ℚ
  final_applied_location_value : ℚ
  estimated_market_value : ℚ
  estimated_forced_value : ℚ
  suggested_grades : List (String × String)
  validation_warnings : List String
  remarks : String
  deriving Repr

/-- The elevator special-items cost (lines 223-229): the table entry
whose stop count is closest to the requested stops, `0` without an
elevator; an empty table is the ValueError of `min()` on no keys. -/
def specialItemsCost? (E : EngineData) (si : SpecialItems) : Option ℚ :=
  if si.has_elevator.getD false then
    (closestElevatorKey? E.elevator_rates (si.elevator_stops.getD 0)).map
      (fun closest_key => dgetD E.elevator_rates closest_key 0)
  else some 0

/-- `run_full_valuation` (lines 143-278). -/
def run_full_valuation? (E : EngineData) (vd : ValuationData) : Option VResult := do
  let infos ← vd.buildings.enum.mapM (fun p => buildingInfo? E p.1 p.2)
  let total_building_cost := (infos.map (fun x => x.1)).sum
  let all_suggested_grades := infos.foldl (fun acc x => acc ++ x.2.1) []
  let validation_warnings := infos.foldl (fun acc x => acc ++ x.2.2) []
  let special_items_cost ← specialItemsCost? E vd.special_items
  let ccw := total_building_cost + special_items_cost
  let b0 ← vd.buildings.head?
  let c0 ← b0.category
  let plot_area ← scaledPlotArea? vd
  let calculated_lv := calculate_location_value E.all_location_data
    (vd.property_details.prop_town.getD "") (vd.property_details.gen_use.getD "")
    (vd.property_details.plot_grade.getD "") plot_area
  let lv_limit := calculate_location_value_limit ccw plot_area
  let final_location_value := min calculated_lv lv_limit
  let total_other_costs :=
    if c0 = "Apartment / Condominium" then 0
    else
      ccw * (vd.other_costs.fence_percent.getD 0 / 100)
      + ccw * (vd.other_costs.septic_percent.getD 0 / 100)
      + ccw * (vd.other_costs.external_works_percent.getD 0 / 100)
      + vd.other_costs.water_tank_cost.getD 0
  let mcf := vd.financial_factors.mcf.getD 1
  let pef := vd.financial_factors.pef.getD 1
  let sub_total := ccw + final_location_value + total_other_costs
  let consultancy_fee := sub_total * (vd.other_costs.consultancy_percent.getD 0 / 100)
  let total_market_value := (sub_total + consultancy_fee) * mcf * pef
  let forced_value := total_market_value * 0.8
  return {
    total_building_cost := ccw
    total_other_costs := total_other_costs
    calculated_location_value := calculated_lv
    location_value_limit := lv_limit
    final_applied_location_value := final_location_value
    estimated_market_value := total_market_value
    estimated_forced_value := forced_value
    suggested_grades := all_suggested_grades
    validation_warnings := validation_warnings
    remarks := vd.remarks.getD "" }

/-! ### agent.py : session state

Slot values are the Python values the agent actually stores: raw answer
strings, parsed booleans, floats (rationals), `None`, the list of section
records, and the `__expected_choices__` tuple. Section records are small
dictionaries holding numbers or strings. -/

inductive SecVal where
  | num (q : ℚ)
  | str (s : String)
  deriving Repr, DecidableEq

abbrev Sec := List (String × SecVal)

inductive PyVal where
  | str (s : String)
  | pybool (b : Bool)
  | num (q : ℚ)
  | pynone
  | seclist (secs : List Sec)
  | pending (slot : String) (options : List String)
  deriving Repr, DecidableEq

abbrev Slots := List (String × PyVal)

/-- Python truthiness of the stored values. -/
def pyTruthy : PyVal → Bool
  | .str s => s ≠ ""
  | .pybool b => b
  | .num q => q ≠ 0
  | .pynone => false
  | .seclist secs => secs ≠ []
  | .pending _ _ => true

/-- Python `int(v)`; `none` where Python raises (None, lists, tuples). -/
def pyIntOf? : PyVal → Option ℤ
  | .num q => some (ratTrunc q)
  | .str s => intParse? s
  | .pybool b => some (if b then 1 else 0)
  | _ => none

/-- Python `v < n` against an int; `none` is the TypeError of comparing
None / str / list / tuple with an int. -/
def pyLtInt? : PyVal → ℤ → Option Bool
  | .num q, n => some (decide (q < (n : ℚ)))
  | .pybool b, n => some (decide ((if b then 1 else 0 : ℤ) < n))
  | _, _ => none

/-- Python `v + 1` (the `+= 1` on the section cursor). -/
def pyIncOne? : PyVal → Option PyVal
  | .num q => some (.num (q + 1))
  | .pybool b => some (.num (if b then 2 else 1))
  | _ => none

/-- A value used as a list index / length bound; `none` is the TypeError
of a non-integer index. -/
def pyNatIdx? : PyVal → Option ℕ
  | .num q => if q.den = 1 ∧ 0 ≤ q.num then some q.num.toNat else none
  | .pybool b => some (if b then 1 else 0)
  | _ => none

/-- Integer-style display of a stored number inside a prompt. -/
def pyValDisplay : PyVal → String
  | .num q => if q.den = 1 then toString q.num else toString q
  | .str s => s
  | .pybool b => if b then "True" else "False"
  | .pynone => "None"
  | _ => ""

structure Msg where
  role : String
  content : String
  deriving Repr, DecidableEq

def Msg.assistant (c : String) : Msg := ⟨"assistant", c⟩

def Msg.user (c : String) : Msg := ⟨"user", c⟩

/-- `ValuationState`: transcript, slot map, asked order. -/
structure AgentState where
  messages : List Msg
  slots : Slots
  asked : List String
  deriving Repr, DecidableEq

def initial_state : AgentState := ⟨[], [], []⟩

/-! ### agent.py : static option sets -/

def VALID_CATEGORIES : List String :=
  ["Higher Villa", "Multi-Story Building", "Apartment / Condominium",
   "MPH & Factory Building", "Fuel Station", "Coffee Washing Site", "Green House"]

def VALID_USE : List String := ["Residential", "Commercial"]

def VALID_TOWN_CLASSES : List String :=
  ["Finfinne Border A1", "Surrounding Finfine B1", "Surrounding Finfine B2",
   "Surrounding Finfine B3", "Major Cities C1", "Major Cities C2",
   "Secondary Major Cities D1", "Secondary Major Cities D2",
   "Tertiary Towns E1", "Tertiary Towns E2"]

def TOWN_CLASS_EXAMPLES : List (String × String) :=
  [("Finfinne Border A1", "Houses near the edge of Finfinne city, close to main roads"),
   ("Surrounding Finfine B1", "Neighborhoods just outside the city, mostly homes"),
   ("Surrounding Finfine B2", "Areas farther from the city, mix of houses and small shops"),
   ("Surrounding Finfine B3", "Countryside areas outside the city, mostly farms"),
   ("Major Cities C1", "Busy city center, many shops and offices"),
   ("Major Cities C2", "Residential areas inside major cities"),
   ("Secondary Major Cities D1", "Small towns near bigger cities"),
   ("Secondary Major Cities D2", "Smaller towns, fewer buildings and shops"),
   ("Tertiary Towns E1", "Very small towns, mostly houses and farmland"),
   ("Tertiary Towns E2", "Remote villages, few houses, mostly farmland")]

def MATERIAL_EXAMPLES : List (String × String) :=
  [("foundation", "Reinforced concrete; Stone; Mud block"),
   ("roof", "Corrugated iron; Tile; Concrete slab"),
   ("floor", "Ceramic; Wood; Concrete"),
   ("ceiling", "Gypsum board; Wood; Concrete"),
   ("metal work", "Aluminum; Steel; Iron"),
   ("sanitary", "Standard; Premium; Basic")]

def BASE_REQUIRED_SLOTS_IN_ORDER : List String :=
  ["collateral_type", "building_category", "prop_town", "gen_use",
   "plot_area_sqm", "length", "width", "num_floors", "has_basement",
   "is_under_construction", "incomplete_components", "has_elevator",
   "elevator_stops", "num_sections", "section_dimensions", "mcf", "pef"]

def SPECIAL_CATEGORY_BASE_SLOTS : List String := ["prop_town"]

def SPECIAL_CATEGORIES : List String :=
  ["Fuel Station", "Coffee Washing Site", "Green House"]

def CATEGORY_SPECIAL_SLOTS : List (String × List String) :=
  [("Higher Villa", []),
   ("Multi-Story Building", []),
   ("Apartment / Condominium", []),
   ("MPH & Factory Building", ["height_meters", "has_basement"]),
   ("Fuel Station", ["site_preparation_area", "forecourt_area", "canopy_area",
                     "num_pump_islands", "num_ugt_30m3", "num_ugt_50m3"]),
   ("Coffee Washing Site", ["cherry_hopper_area", "fermentation_tanks_area",
                            "washing_channels_length", "coffee_drier_area"]),
   ("Green House", ["greenhouse_area", "in_farm_road_km", "borehole_depth",
                    "land_preparation_area"])]

def SPECIAL_SLOT_EXAMPLES : List (String × String) :=
  [("height_meters", "e.g., 3.5 (in meters, will determine if <=4m or >4m category applies)"),
   ("has_basement", "e.g., yes/no (whether the building has a basement)"),
   ("site_preparation_area", "e.g., 1500 (sqm)"),
   ("forecourt_area", "e.g., 800 (sqm)"),
   ("canopy_area", "e.g., 320 (sqm)"),
   ("num_pump_islands", "e.g., 4 (count)"),
   ("num_ugt_30m3", "e.g., 2 (count)"),
   ("num_ugt_50m3", "e.g., 1 (count)"),
   ("cherry_hopper_area", "e.g., 45 (sqm)"),
   ("fermentation_tanks_area", "e.g., 120 (sqm)"),
   ("washing_channels_length", "e.g., 60 (meters)"),
   ("coffee_drier_area", "e.g., 300 (sqm)"),
   ("greenhouse_area", "e.g., 5000 (sqm)"),
   ("in_farm_road_km", "e.g., 1.2 (km)"),
   ("borehole_depth", "e.g., 80 (meters)"),
   ("land_preparation_area", "e.g., 8000 (sqm)")]

/-- `_boolify`. -/
def boolify? (text : String) : Option Bool :=
  let t := strLower (strTrim text)
  if t ∈ ["yes", "y", "true", "t", "1", "ye", "yea", "yep", "ok", "okay", "sure"] then
    some true
  else if t ∈ ["no", "n", "false", "f", "0", "nah", "nope", "not", "mo", "mo]", "nop"] then
    some false
  else none

/-- `format_choices_with_examples`. -/
def format_choices_with_examples (choices : List String)
    (examples_map : List (String × String)) : String :=
  String.intercalate "\n" (choices.enum.map (fun p =>
    match dget? examples_map p.2 with
    | some ex => toString (p.1 + 1) ++ ". " ++ p.2 ++ " — " ++ ex
    | none => toString (p.1 + 1) ++ ". " ++ p.2))

def numberedList (choices : List String) : String :=
  String.intercalate "\n" (choices.enum.map (fun p =>
    toString (p.1 + 1) ++ ". " ++ p.2))

def defaultComponents : List String :=
  ["foundation", "roof", "floor", "ceiling", "metal work", "sanitary"]

/-- `get_material_components_for_category`. The component lists come
from material_mappings.json (a provider data file outside the core
sources) and are passed in as `mm`. -/
def get_material_components_for_category (mm : String → List String)
    (category : String) : List String :=
  let comps := mm category
  if comps = [] then defaultComponents else comps

/-- The component list for the raw category value stored in the slot map:
a hashable non-string key misses every string key of the mapping (the
empty-dict default applies); an unhashable list value is a TypeError. -/
def materialComponentsFor? (mm : String → List String) :
    PyVal → Option (List String)
  | .seclist _ => none
  | .str c => some (get_material_components_for_category mm c)
  | _ => some defaultComponents

/-- `slots.get("collateral_type", "").lower()`; a non-string stored value
is an AttributeError. -/
def collateralLowerOf? (slots : Slots) : Option String :=
  match dgetD slots "collateral_type" (.str "") with
  | .str s => some (strLower s)
  | _ => none

/-! ### agent.py : slot schema -/

/-- `current_required_slots` (lines 189-231). The returned slot map
reflects the in-place `slots["gen_use"] = "Commercial"` mutation for
MPH & Factory sessions. -/
def current_required_slots (mm : String → List String) (slots : Slots) :
    Option (List String × Slots) := do
  let coll ← collateralLowerOf? slots
  if coll = "car" then
    return ([], slots)
  else
    let cat := dgetD slots "building_category" .pynone
    let isSpecial : Bool := match cat with
      | .str c => decide (c ∈ SPECIAL_CATEGORIES)
      | _ => false
    if isSpecial then
      match cat with
      | .str c =>
        let req := SPECIAL_CATEGORY_BASE_SLOTS ++ dgetD CATEGORY_SPECIAL_SLOTS c []
        let req := if "has_elevator" ∈ req then removeFirst req "has_elevator" else req
        let req := if "elevator_stops" ∈ req then removeFirst req "elevator_stops" else req
        return (dedupKeep req, slots)
      | _ => none
    else
      let req := BASE_REQUIRED_SLOTS_IN_ORDER
      let req := if cat ≠ .str "Multi-Story Building" then
          req.filter (fun s => decide (s ∉ ["num_floors", "has_elevator", "elevator_stops"]))
        else req
      let reqSlots :=
        if cat = .str "MPH & Factory Building" then
          (req.filter (fun s =>
              decide (s ∉ ["length", "width", "gen_use", "num_sections", "section_dimensions"]))
            ++ dgetD CATEGORY_SPECIAL_SLOTS "MPH & Factory Building" [],
           dset slots "gen_use" (.str "Commercial"))
        else (req, slots)
      if pyTruthy cat then do
        let comps ← materialComponentsFor? mm cat
        return (dedupKeep (reqSlots.1 ++ comps.map (fun comp => "material__" ++ comp)),
                reqSlots.2)
      else
        return (dedupKeep reqSlots.1, reqSlots.2)

/-- Lines 243-249 of missing_slots: the category-specific suppression of
the section and basement slots. -/
def categorySuppression (s1 : Slots) (needed : List String) : List String :=
  let cat := dgetD s1 "building_category" .pynone
  let needed := if cat = .str "Apartment / Condominium" then
      needed.filter (fun s =>
        decide (s ∉ ["num_sections", "section_dimensions", "has_basement"]))
    else needed
  if cat = .str "MPH & Factory Building" then
    needed.filter (fun s => decide (s ∉ ["num_sections", "section_dimensions"]))
  else needed

/-- Lines 252-255 of missing_slots: drop elevator_stops under a falsy
recorded has_elevator and incomplete_components under a falsy recorded
is_under_construction. -/
def conditionalSuppression (s1 : Slots) (needed : List String) : List String :=
  let needed := match dget? s1 "has_elevator" with
    | some v => if pyTruthy v then needed else needed.filter (fun s => s ≠ "elevator_stops")
    | none => needed
  match dget? s1 "is_under_construction" with
  | some v => if pyTruthy v then needed else needed.filter (fun s => s ≠ "incomplete_components")
  | none => needed

/-- Lines 257-261 of missing_slots: remove the section placeholder while
the section loop is in progress; the cursor comparison can raise. -/
def sectionRemoval? (s1 : Slots) (needed : List String) : Option (List String) :=
  if "section_dimensions" ∈ needed ∧
      dgetD s1 "building_category" .pynone
        ∉ [PyVal.str "Apartment / Condominium", PyVal.str "MPH & Factory Building"] then
    match dget? s1 "section_index" with
    | some si =>
      (pyIntOf? (dgetD s1 "num_sections" (.num 1))).bind (fun n =>
        (pyLtInt? si n).map (fun lt =>
          if lt then removeFirst needed "section_dimensions" else needed))
    | none => some needed
  else
    some needed

/-- The body of `missing_slots` once the required list is built
(lines 239-262): the not-yet-stored filter, the category and conditional
suppressions, and the in-progress section-loop removal. -/
def missing_slots_core (s1 : Slots) (req : List String) : Option (List String) :=
  sectionRemoval? s1 (conditionalSuppression s1 (categorySuppression s1
    (req.filter (fun s => !(dmem s1 s)))))

/-- `missing_slots` (lines 234-262), threading the mutated slot map. -/
def missing_slots (mm : String → List String) (slots : Slots) :
    Option (List String × Slots) := do
  let coll ← collateralLowerOf? slots
  if coll = "car" then
    return ([], slots)
  else
    let rs ← current_required_slots mm slots
    (missing_slots_core rs.2 rs.1).map (fun l => (l, rs.2))

/-- `should_calculate` (lines 599-615), returning the dispatch label and
the (possibly mutated) slot map. -/
def should_calculate (mm : String → List String) (st : AgentState) :
    Option (String × Slots) := do
  let coll ← collateralLowerOf? st.slots
  if coll = "car" then
    return ("ASK", st.slots)
  else
    let ms ← missing_slots mm st.slots
    if "section_dimensions" ∈ ms.1 then return ("ASK", ms.2)
    else if ms.1 ≠ [] then return ("ASK", ms.2)
    else if !(pyTruthy (dgetD ms.2 "_confirmed" (.pybool false))) then
      return ("CONFIRM", ms.2)
    else return ("CALC", ms.2)

/-! ### agent.py : ask_next_question_node -/

def options_map : List (String × List String) :=
  [("building_category", VALID_CATEGORIES), ("gen_use", VALID_USE),
   ("prop_town", VALID_TOWN_CLASSES)]

def label_map : List (String × String) :=
  [("building_name", "building name"),
   ("num_floors", "number of floors"),
   ("has_basement", "Does the building have a basement?"),
   ("is_under_construction", "Is the building under construction?"),
   ("incomplete_components", "List incomplete components"),
   ("plot_area_sqm", "plot area (sqm)"),
   ("mcf", "Market Condition Factor (MCF)"),
   ("pef", "Property Enhancement Factor (PEF)"),
   ("has_elevator", "Is there an elevator?"),
   ("elevator_stops", "How many elevator stops?"),
   ("num_sections", "How many sections does the building have?")]

def generic_examples : List (String × String) :=
  [("building_name", "e.g., Villa Sunshine"),
   ("num_floors", "e.g., 3"),
   ("incomplete_components", "e.g., Foundation, Roof (or leave empty)"),
   ("plot_area_sqm", "e.g., 450"),
   ("mcf", "Reply 1.0 if unsure"),
   ("pef", "Reply 1.0 if unsure"),
   ("elevator_stops", "e.g., 5")]

/-- Question text for slot `s` plus the slot map after the
`__expected_choices__` bookkeeping (lines 315-381); `none` is the
TypeError of rendering `idx + 1` on a non-numeric section cursor. -/
def renderQuestion? (s1 : Slots) (s : String) : Option (String × Slots) :=
  match dget? options_map s with
  | some choices =>
    let body :=
      if s = "prop_town" then format_choices_with_examples choices TOWN_CLASS_EXAMPLES
      else numberedList choices
    some ("Please select " ++ (s.replace "_" " ") ++ ":\n" ++ body ++
            "\n(Reply with the number)",
          dset s1 "__expected_choices__" (.pending s choices))
  | none =>
    if strStartsWith s "material__" then
      let comp := strDrop s 10
      let material_options :=
        (dgetD MATERIAL_EXAMPLES (strLower comp)
          "Reinforced concrete; Stone; Mud block").splitOn "; "
      some ("Select material for " ++ comp ++ ":\n" ++ numberedList material_options ++
              "\n(Reply with the number)",
            dset s1 "__expected_choices__" (.pending s material_options))
    else
      match dget? SPECIAL_SLOT_EXAMPLES s with
      | some ex => some ("Enter " ++ (s.replace "_" " ") ++ " (" ++ ex ++ "):", s1)
      | none =>
        if s = "section_dimensions" then
          (pyIncOne? (dgetD s1 "section_index" (.num 0))).map (fun idx1 =>
            let cat := dgetD s1 "building_category" .pynone
            if cat = PyVal.str "Apartment / Condominium" then
              ("Enter area of section " ++ pyValDisplay idx1 ++ " in sqm (e.g., 50):", s1)
            else if pyTruthy (dgetD s1 "awaiting_width" (.pybool false)) then
              ("Enter width of section " ++ pyValDisplay idx1 ++ " in meters (e.g., 5):", s1)
            else
              ("Enter length of section " ++ pyValDisplay idx1 ++ " in meters (e.g., 10):", s1))
        else
          match dget? label_map s with
          | some label =>
            if s ∈ ["has_basement", "is_under_construction", "has_elevator"] then
              some (label ++ " (yes/no)", s1)
            else
              some ("Enter " ++ label ++
                (match dget? generic_examples s with
                 | some ex => " (" ++ ex ++ ")"
                 | none => "") ++ ":", s1)
          | none => some ("Please provide the value for: " ++ s, s1)

/-- `ask_next_question_node` (lines 265-385). `none` marks the states on
which the Python function raises (the section-cursor comparison or the
prompt rendering on an unusable cursor value). -/
def ask_next_question_node (mm : String → List String) (st : AgentState) :
    Option AgentState := do
  let ms ← missing_slots mm st.slots
  let s1 := ms.2
  let asked := st.asked
  let remaining := ms.1.filter (fun s => decide (s ∉ asked))
  let cat := dgetD s1 "building_category" .pynone
  let remaining :=
    if cat ∈ [PyVal.str "Apartment / Condominium", PyVal.str "MPH & Factory Building"] then
      remaining.filter (fun s => decide (s ∉ ["num_sections", "section_dimensions"]))
    else remaining
  if "collateral_type" ∈ remaining ∧ "collateral_type" ∉ asked then
    return { st with
      slots := s1
      messages := st.messages ++ [Msg.assistant "Select collateral type (House or Car):"]
      asked := asked ++ ["collateral_type"] }
  else
    let coll ← collateralLowerOf? s1
    if coll = "car" then do
      let rs ← current_required_slots mm s1
      return { st with
        slots := rs.2
        messages := st.messages ++
          [Msg.assistant "🚗 Car collateral valuation is currently in development. Please check back later!"]
        asked := rs.1 }
    else
      let inLoop ← (match dget? s1 "section_index" with
        | some si => (pyIntOf? (dgetD s1 "num_sections" (.num 1))).bind (fun n => pyLtInt? si n)
        | none => some false)
      let sChosen? : Option String :=
        if inLoop then some "section_dimensions" else remaining.head?
      match sChosen? with
      | none => return { st with slots := s1 }
      | some s0 =>
        let s2 := match cat with
          | .str c =>
            if c ∈ SPECIAL_CATEGORIES ∧
                s0 ∉ SPECIAL_CATEGORY_BASE_SLOTS ++ dgetD CATEGORY_SPECIAL_SLOTS c [] then
              match (dgetD CATEGORY_SPECIAL_SLOTS c []).find? (fun slot => !(dmem s1 slot)) with
              | some ns => ns
              | none => s0
            else s0
          | _ => s0
        let s3 :=
          if cat = PyVal.str "MPH & Factory Building" ∧ dmem s1 "height_meters" = false ∧
              strStartsWith s2 "material__" = true then
            "height_meters"
          else s2
        let rq ← renderQuestion? s1 s3
        return { st with
          slots := rq.2
          messages := st.messages ++ [Msg.assistant rq.1]
          asked := asked ++ [s3] }

/-! ### agent.py : extract_info_node -/

def padTo (secs : List Sec) (n : ℕ) : List Sec :=
  secs ++ List.replicate (n - secs.length) []

/-- The section sub-protocol of extract_info_node (lines 445-504). The
`← dget? slots "section_index"` before the increment is the Python
KeyError of `slots["section_index"] += 1` on a cursor that was never
initialized. -/
def extractSection? (st : AgentState) (content : String) : Option AgentState := do
  let idxV := dgetD st.slots "section_index" (.num 0)
  let cat := dgetD st.slots "building_category" .pynone
  let slots0 :=
    if dmem st.slots "section_dimensions" then st.slots
    else dset st.slots "section_dimensions" (.seclist [])
  if cat = PyVal.str "Apartment / Condominium" then
    match pyFloatParse? content with
    | none =>
      return { st with
        slots := slots0
        messages := st.messages ++ [Msg.assistant "Please enter a valid number for the area."] }
    | some area => do
      let idx ← pyNatIdx? idxV
      let secs ← (match dget? slots0 "section_dimensions" with
        | some (.seclist l) => some l
        | _ => none)
      let secs := padTo secs (idx + 1)
      let secs := secs.set idx (dset (secs.getD idx []) "area" (.num area))
      let slots1 := dset slots0 "section_dimensions" (.seclist secs)
      let siOld ← dget? slots1 "section_index"
      let siNew ← pyIncOne? siOld
      let slots2 := dset slots1 "section_index" siNew
      let n ← pyIntOf? (dgetD slots2 "num_sections" (.num 1))
      let qNew ← (match siNew with | .num q => some q | _ => none)
      if (n : ℚ) ≤ qNew then
        let slots3 := dpop (dpop slots2 "section_index") "awaiting_width"
        let asked2 :=
          if "section_dimensions" ∈ st.asked then st.asked
          else st.asked ++ ["section_dimensions"]
        return { st with slots := slots3, asked := asked2 }
      else
        return { st with slots := slots2 }
  else
    if pyTruthy (dgetD slots0 "awaiting_width" (.pybool false)) then
      match pyFloatParse? content with
      | none =>
        return { st with
          slots := slots0
          messages := st.messages ++ [Msg.assistant "Please enter a valid number for the width."] }
      | some width => do
        let idx ← pyNatIdx? idxV
        let secs ← (match dget? slots0 "section_dimensions" with
          | some (.seclist l) => some l
          | _ => none)
        let secs := padTo secs (idx + 1)
        let secs := secs.set idx (dset (secs.getD idx []) "width" (.num width))
        let slots1 := dset slots0 "section_dimensions" (.seclist secs)
        let siOld ← dget? slots1 "section_index"
        let siNew ← pyIncOne? siOld
        let slots2 := dset (dset slots1 "section_index" siNew) "awaiting_width" (.pybool false)
        let n ← pyIntOf? (dgetD slots2 "num_sections" (.num 1))
        let qNew ← (match siNew with | .num q => some q | _ => none)
        if (n : ℚ) ≤ qNew then
          -- pop the cursor, then re-bind it to None, then pop the width flag
          -- (lines 483-485 verbatim)
          let slots3 := dpop slots2 "section_index"
          let slots4 := dset slots3 "section_index" .pynone
          let slots5 := dpop slots4 "awaiting_width"
          let asked2 :=
            if "section_dimensions" ∈ st.asked then st.asked
            else st.asked ++ ["section_dimensions"]
          return { st with slots := slots5, asked := asked2 }
        else
          return { st with slots := slots2 }
    else
      match pyFloatParse? content with
      | none =>
        return { st with
          slots := slots0
          messages := st.messages ++ [Msg.assistant "Please enter a valid number for the length."] }
      | some len => do
        let idx ← pyNatIdx? idxV
        let secs ← (match dget? slots0 "section_dimensions" with
          | some (.seclist l) => some l
          | _ => none)
        let secs := padTo secs (idx + 1)
        let secs := secs.set idx (dset (secs.getD idx []) "length" (.num len))
        let slots1 := dset slots0 "section_dimensions" (.seclist secs)
        let slots2 := dset slots1 "awaiting_width" (.pybool true)
        return { st with slots := slots2 }

/-- extract_info_node after the boolean and pending-choice branches
(lines 429-507). -/
def extractRest (st : AgentState) (last_asked content : String) :
    Option AgentState := do
  if last_asked = "building_category" then
    let n := (digitsVal? content.toList).getD 0
    if isDigitStr content ∧ 0 < n ∧ n ≤ VALID_CATEGORIES.length then
      let selected := VALID_CATEGORIES.getD (n - 1) ""
      let slots1 := dset st.slots "building_category" (.str selected)
      if selected = "Apartment / Condominium" then
        let slots2 := dset slots1 "num_sections" (.str "1")
        let slots3 := dset slots2 "section_dimensions" (.seclist [[("area", .str "100")]])
        return { st with
          slots := slots3
          asked := st.asked ++ ["num_sections", "section_dimensions"] }
      else
        return { st with slots := slots1 }
    else
      return { st with messages := st.messages ++
        [Msg.assistant "Please select a valid number from the list."] }
  else if last_asked = "section_dimensions" then
    extractSection? st content
  else
    return { st with slots := dset st.slots last_asked (.str content) }

/-- `extract_info_node` (lines 391-507). -/
def extract_info_node (st : AgentState) : Option AgentState := do
  match st.messages.getLast? with
  | none => return st
  | some last =>
    if last.role ≠ "user" then return st
    else
      match st.asked.getLast? with
      | none => return st
      | some last_asked =>
        let content := strTrim last.content
        if last_asked ∈ ["has_basement", "has_elevator", "is_under_construction"] then
          match boolify? content with
          | some b => return { st with slots := dset st.slots last_asked (.pybool b) }
          | none => return { st with messages := st.messages ++
              [Msg.assistant "I couldn\x27t understand that. Please reply with \x27yes\x27 or \x27no\x27."] }
        else
          match dget? st.slots "__expected_choices__" with
          | some v =>
            if pyTruthy v then
              match v with
              | .pending slot choices =>
                if isDigitStr content then
                  let idx : ℤ := (((digitsVal? content.toList).getD 0 : ℕ) : ℤ) - 1
                  if 0 ≤ idx ∧ idx < (choices.length : ℤ) then
                    let slots2 :=
                      dpop (dset st.slots slot (.str (choices.getD idx.toNat "")))
                        "__expected_choices__"
                    return { st with slots := slots2 }
                  else
                    return { st with messages := st.messages ++
                      [Msg.assistant ("Please select a number between 1 and " ++
                        toString choices.length ++ ".")] }
                else
                  return { st with messages := st.messages ++
                    [Msg.assistant "Please enter a valid number corresponding to your choice."] }
              | _ => none
            else
              extractRest st last_asked content
          | none =>
            extractRest st last_asked content

/-! ### agent.py : confirmation node and the CLI driver -/

/-- `process_confirmation_node` (lines 582-596). -/
def process_confirmation_node (st : AgentState) : AgentState :=
  match st.messages.getLast? with
  | none => st
  | some last =>
    let user_response := strLower (strTrim last.content)
    if user_response ∈ ["yes", "y", "proceed", "confirm"] then
      { st with
        slots := dset st.slots "_confirmed" (.pybool true)
        messages := st.messages ++ [Msg.assistant "✅ Proceeding with valuation..."] }
    else if user_response ∈ ["no", "n", "cancel", "stop"] then
      { st with
        slots := dset st.slots "_confirmed" (.pybool false)
        messages := st.messages ++
          [Msg.assistant "❌ Valuation cancelled. Type \x27quit\x27 or start over."] }
    else
      { st with messages := st.messages ++
        [Msg.assistant "Please respond with \x27yes\x27 or \x27no\x27."] }

/-- One turn of the CLI runner (lines 846-865) in the case the
dispatcher selects ASK: append the user message, extract, dispatch. A
turn on which `should_calculate` selects CONFIRM or CALC is left
unmodelled (`none`), so a successful run certifies that every processed
turn dispatched to ask_next_question_node. -/
def turnAsk (mm : String → List String) (st : AgentState) (u : String) :
    Option AgentState := do
  let st1 := { st with messages := st.messages ++ [Msg.user u] }
  let st2 ← extract_info_node st1
  let d ← should_calculate mm st2
  if d.1 = "ASK" then ask_next_question_node mm { st2 with slots := d.2 }
  else none

def runTurns (mm : String → List String) (st : AgentState)
    (inputs : List String) : Option AgentState :=
  inputs.foldlM (turnAsk mm) st

/-- The session opening of the CLI runner (lines 842-843): the first
question asked on the fresh state. -/
def startState? (mm : String → List String) : Option AgentState :=
  ask_next_question_node mm initial_state

/-- The deployed material_mappings.json keys its material tables by
mapping-family names (see data_loader.get_mapping_by_category), never by
category names, so `MATERIAL_MAPPINGS.get(category, dict())` is empty for
every category and agent.py falls back to the default component list. -/
def mmNone : String → List String := fun _ => []

/-! ### Claim-side characterizations -/

/-- Modelled from the spec: the apartment floor deduction, `0.025` at
floor 1, decreasing linearly by `0.015` per floor above 1. -/
def apartmentClaimDeduction (n : ℤ) : ℚ :=
  if n = 1 then 0.025 else 0.025 - 0.015 * ((n : ℚ) - 1)

/-- The quality scores of the components that matched a mapping
substring, in component order (the multiset the code averages over). -/
def matchedScores (mapping : List (String × List (String × String)))
    (selected : List (String × String)) : List ℚ :=
  selected.filterMap (fun p => componentMatchScore? mapping p.1 p.2)

/-- Modelled from the spec: the fixed re-bucketing thresholds for the
average quality score. -/
def gradeBucket (q : ℚ) : String :=
  if q ≥ 3.5 then "Excellent"
  else if q ≥ 2.5 then "Good"
  else if q ≥ 1.5 then "Average"
  else if q ≥ 0.5 then "Economy"
  else "Minimum"

/-! ### Concrete instances used by the theorems -/

def testE : EngineData where
  building_rates_data :=
    [⟨"Single Story Building (higher Villa)", [("Average", (6000, 10000))]⟩,
     ⟨"G+1 and G+2", [("Average", (8000, 12000)), ("Good", (12000, 16000))]⟩,
     ⟨"G+3 and G+4", [("Average", (9000, 13000))]⟩]
  component_percentages := []
  fuel_station_rates := ⟨0, 0, 0, 0, 0, 0⟩
  coffee_site_rates := ⟨0, 0, 0, 0⟩
  all_location_data := []
  minimum_completion_stages := []
  elevator_rates := []
  green_house_rates := ⟨0, 0, 0, 0⟩
  material_grade_mapping := fun _ => []

/-- A building whose category value is present but not one of the seven
recognized names. -/
def warehouseBuilding : Building where
  category := some "Warehouse"
  specialized_components := [("total_building_area", 100)]

def msbBuilding : Building where
  category := some "Multi-Story Building"
  specialized_components := [("total_building_area", 100)]

def c2building : Building where
  category := some "Multi-Story Building"
  num_floors := some 2
  has_basement := some true
  specialized_components := [("total_building_area", 100)]

def c1vd : ValuationData where
  buildings := [msbBuilding]
  property_details := { plot_area := some 500 }

def defaultVResult : VResult where
  total_building_cost := 0
  total_other_costs := 0
  calculated_location_value := 0
  location_value_limit := 0
  final_applied_location_value := 0
  estimated_market_value := 0
  estimated_forced_value := 0
  suggested_grades := []
  validation_warnings := []
  remarks := ""

def c1res : VResult := (run_full_valuation? testE c1vd).getD defaultVResult

def c7mapping : List (String × List (String × String)) :=
  [("roof", [("Tile", "Good"), ("Iron", "Economy")]),
   ("floor", [("Ceramic", "Excellent")])]

def c7materials : List (String × String) :=
  [("roof", "Tile roof"), ("floor", "Wood")]

/-- The user inputs of a CLI session that exhibits the broken section
loop: Multi-Story Building, two declared sections, one length answer. -/
def c3inputs : List String :=
  ["House", "2", "1", "1", "450", "20", "15", "2", "no", "no", "no", "2", "10"]

/-- The user inputs of a CLI MPH & Factory session in which the
prop_town choice prompt is answered invalidly (leaving a stale pending
choice that swallows the later free-text answers) and the material
redirect then re-asks height_meters. -/
def c4inputs : List String :=
  ["House", "4", "abc", "450", "yes", "no", "1.0", "1.0", "3.5"]

/-- A full CLI run: the opening question on the fresh state, then one
turn per user input. -/
def runStart (inputs : List String) : Option AgentState :=
  (startState? mmNone).bind (fun s => runTurns mmNone s inputs)

/-- A session state about to finish its single declared section: the
width answer "5" is pending, one section record holds its length, and
the cursor `section_index` holds Python `False` (Python booleans are
ints; `False` is the cursor value 0 before the first completed record). -/
def c10pre : AgentState where
  messages := [Msg.user "5"]
  slots := [("collateral_type", .str "House"),
            ("building_category", .str "Multi-Story Building"),
            ("num_sections", .str "1"),
            ("section_dimensions", .seclist [[("length", .num 10)]]),
            ("awaiting_width", .pybool true),
            ("section_index", .pybool false)]
  asked := ["collateral_type", "building_category", "num_sections", "section_dimensions"]

def c9slots : Slots :=
  [("collateral_type", .str "House"),
   ("building_category", .str "Multi-Story Building"),
   ("has_elevator", .pybool false), ("is_under_construction", .pybool false)]

def c5state : AgentState where
  messages := [Msg.user "no"]
  slots := []
  asked := []

/-- The docstring list of slots still missing on c9slots: everything the
base schema requires except the keys already stored and the two
conditionally suppressed ones. -/
def c9missing : List String :=
  ["prop_town", "gen_use", "plot_area_sqm", "length", "width", "num_floors",
   "has_basement", "num_sections", "section_dimensions", "mcf", "pef",
   "material__foundation", "material__roof", "material__floor",
   "material__ceiling", "material__metal work", "material__sanitary"]

/-- The state after c10pre processes the final width answer: the section
record is complete and the cursor is re-bound to None. -/
def c10post : AgentState where
  messages := [Msg.user "5"]
  slots := [("collateral_type", .str "House"),
            ("building_category", .str "Multi-Story Building"),
            ("num_sections", .str "1"),
            ("section_dimensions", .seclist [[("length", .num 10), ("width", .num 5)]]),
            ("section_index", .pynone)]
  asked := ["collateral_type", "building_category", "num_sections", "section_dimensions"]

/-- The state produced by the opening question of a session. -/
def c4wSt : AgentState where
  messages := [Msg.assistant "Select collateral type (House or Car):"]
  slots := []
  asked := ["collateral_type"]

/-! ### Theorems -/

/-- Extraction of the tail of run_full_valuation: the reported final
location value is the min of the calculated value and the limit, and the
reported limit is the cap function applied to the reported CCW and the
(apartment-scaled) plot area. -/
theorem run_final_is_min (E : EngineData) (vd : ValuationData) (res : VResult)
    (hrun : run_full_valuation? E vd = some res) :
    res.final_applied_location_value
      = min res.calculated_location_value res.location_value_limit
    ∧ ∃ pa, scaledPlotArea? vd = some pa ∧
        res.location_value_limit
          = calculate_location_value_limit res.total_building_cost pa := by
  simp only [run_full_valuation?, bind, Option.bind_eq_some, pure, Option.some.injEq] at hrun
  obtain ⟨infos, h1, sic, h3, b0, h5, c0, h7, pa, h9, h10⟩ := hrun
  subst h10
  exact ⟨rfl, pa, h9, rfl⟩

/-- C1: the location-value limit is 3×CCW for area ≤ 2000 (inclusive at
2000), the interpolation 3.5×CCW − CCW×a/4000 for 2001 ≤ a ≤ 10000, and
1×CCW above 10000 and also on the open interval (2000, 2001) — the code's
integer-bounded middle branch leaves that gap to the else; the final
location value of run_full_valuation is min(calculated, limit). -/
theorem c1_location_value_cap (ccw a : ℚ) (E : EngineData) (vd : ValuationData)
    (res : VResult) (hrun : run_full_valuation? E vd = some res) :
    (a ≤ 2000 → calculate_location_value_limit ccw a = 3 * ccw)
    ∧ (2001 ≤ a ∧ a ≤ 10000 →
        calculate_location_value_limit ccw a = 3.5 * ccw - ccw * a / 4000)
    ∧ (2000 < a ∧ a < 2001 → calculate_location_value_limit ccw a = 1 * ccw)
    ∧ (10000 < a → calculate_location_value_limit ccw a = 1 * ccw)
    ∧ calculate_location_value_limit ccw 2000 = 3 * ccw
    ∧ res.final_applied_location_value
        = min res.calculated_location_value res.location_value_limit := by
  refine ⟨fun h => ?_, fun h => ?_, fun h => ?_, fun h => ?_, ?_,
    (run_final_is_min E vd res hrun).1⟩
  · unfold calculate_location_value_limit
    split_ifs with h0 h1
    · subst h0; ring
    · norm_num
  · obtain ⟨ha, hb⟩ := h
    unfold calculate_location_value_limit
    split_ifs with h0 h1 h2
    · subst h0; ring
    · linarith
    · ring
    · exact absurd ⟨ha, hb⟩ h2
  · obtain ⟨ha, hb⟩ := h
    unfold calculate_location_value_limit
    split_ifs with h0 h1 h2
    · subst h0; ring
    · linarith
    · obtain ⟨h2a, _⟩ := h2; linarith
    · norm_num
  · unfold calculate_location_value_limit
    split_ifs with h0 h1 h2
    · subst h0; ring
    · linarith
    · obtain ⟨_, h2b⟩ := h2; linarith
    · norm_num
  · unfold calculate_location_value_limit
    split_ifs with h0 h1
    · subst h0; ring
    · norm_num
    all_goals exact absurd le_rfl h1

/-- C1 witness: area 1500 takes the 3×CCW cap, and on a concrete full
valuation the final location value is the min of the two quantities. -/
theorem c1_witness :
    ((1500 : ℚ) ≤ 2000 ∧ calculate_location_value_limit 2 1500 = 3 * 2)
    ∧ c1res.final_applied_location_value
        = min c1res.calculated_location_value c1res.location_value_limit :=
  ⟨⟨by norm_num, (c1_location_value_cap 2 1500 testE c1vd c1res rfl).1 (by norm_num)⟩,
   (c1_location_value_cap 2 1500 testE c1vd c1res rfl).2.2.2.2.2⟩

/-- C1 counterexample: at plot area 2000.5 (inside the open gap between
the `<= 2000` branch and the `2001 <= a` branch) the code returns 1×CCW,
not the claimed interpolation value. -/
theorem c1_counterexample :
    calculate_location_value_limit 1 (4001 / 2) = 1
    ∧ calculate_location_value_limit 1 (4001 / 2) ≠ 3.5 * 1 - 1 * (4001 / 2) / 4000 := by
  constructor <;> norm_num [calculate_location_value_limit]

/-- C6: the apartment cost applies the claimed deduction d(n) (0.025 at
floor 1, decreasing 0.015 per floor above), clamped from below at −0.10,
returns B × (1 − clamped d), and for a nonnegative base cost never
exceeds B × 1.10. -/
theorem c6_apartment_floor_adjustment (B : ℚ) (n : ℤ) (hn : 1 ≤ n) :
    calculate_apartment_cost B n = B * (1 - max (-0.10) (apartmentClaimDeduction n))
    ∧ (-0.10 : ℚ) ≤ max (-0.10) (apartmentClaimDeduction n)
    ∧ apartmentClaimDeduction 1 = 0.025
    ∧ apartmentClaimDeduction 5 = -0.035
    ∧ (0 ≤ B → calculate_apartment_cost B n ≤ B * 1.10) := by
  have hcost : calculate_apartment_cost B n
      = B * (1 - max (-0.10) (apartmentClaimDeduction n)) := by
    rcases eq_or_lt_of_le hn with h | h
    · simp [calculate_apartment_cost, apartmentClaimDeduction, ← h]
    · have hne : ¬ n = 1 := by omega
      simp [calculate_apartment_cost, apartmentClaimDeduction, hne, h]
  refine ⟨hcost, le_max_left _ _, by norm_num [apartmentClaimDeduction],
    by norm_num [apartmentClaimDeduction], fun hB => ?_⟩
  rw [hcost]
  have h1 : (1 : ℚ) - max (-0.10) (apartmentClaimDeduction n) ≤ 1.10 := by
    have := le_max_left (-0.10 : ℚ) (apartmentClaimDeduction n)
    linarith
  calc B * (1 - max (-0.10) (apartmentClaimDeduction n)) ≤ B * 1.10 :=
        mul_le_mul_of_nonneg_left h1 hB

/-- C6 witness at base cost 4 and floor 5 (where the deduction is a
premium of 0.035). -/
theorem c6_witness :
    (1 : ℤ) ≤ 5
    ∧ calculate_apartment_cost 4 5 = 4 * (1 - max (-0.10) (apartmentClaimDeduction 5))
    ∧ apartmentClaimDeduction 5 = -0.035
    ∧ ((0 : ℚ) ≤ 4 → calculate_apartment_cost 4 5 ≤ 4 * 1.10) :=
  ⟨by norm_num, (c6_apartment_floor_adjustment 4 5 (by norm_num)).1,
   (c6_apartment_floor_adjustment 4 5 (by norm_num)).2.2.2.1,
   (c6_apartment_floor_adjustment 4 5 (by norm_num)).2.2.2.2⟩

/-- The running total/count pair of suggest_grade_from_materials equals
the sum and length of the matched-score list. -/
theorem suggest_foldl_acc (mapping : List (String × List (String × String))) :
    ∀ (l : List (String × String)) (t : ℚ) (c : ℕ),
      l.foldl (fun (tc : ℚ × ℕ) p =>
          match componentMatchScore? mapping p.1 p.2 with
          | some sc => (tc.1 + sc, tc.2 + 1)
          | none => tc) (t, c)
        = (t + (matchedScores mapping l).sum, c + (matchedScores mapping l).length) := by
  intro l
  induction l with
  | nil => intro t c; simp [matchedScores]
  | cons p tl ih =>
    intro t c
    simp only [List.foldl_cons]
    cases hm : componentMatchScore? mapping p.1 p.2 with
    | none =>
      simp only [hm]
      rw [ih]
      simp [matchedScores, List.filterMap_cons, hm]
    | some sc =>
      simp only [hm]
      rw [ih]
      simp only [matchedScores, List.filterMap_cons, hm, List.sum_cons,
        List.length_cons, Prod.mk.injEq]
      exact ⟨by ring, by omega⟩

theorem quality_score_range (g : String) :
    0 ≤ dgetD quality_scores g 2 ∧ dgetD quality_scores g 2 ≤ 4 := by
  simp only [quality_scores, dgetD, dget?]
  split_ifs <;> norm_num

/-- C7: grade suggestion scores matched components on the 0-4 scale,
averages over matched components only, defaults to "Average" when
nothing matched, and re-buckets the average by the fixed thresholds. -/
theorem c7_suggest_grade (mapping : List (String × List (String × String)))
    (selected : List (String × String)) :
    (matchedScores mapping selected = [] →
      suggest_grade_from_materials mapping selected = "Average")
    ∧ (matchedScores mapping selected ≠ [] →
        suggest_grade_from_materials mapping selected
          = gradeBucket ((matchedScores mapping selected).sum
              / ((matchedScores mapping selected).length : ℚ)))
    ∧ (∀ p ∈ selected, ∀ sc, componentMatchScore? mapping p.1 p.2 = some sc →
        0 ≤ sc ∧ sc ≤ 4) := by
  have hacc := suggest_foldl_acc mapping selected 0 0
  refine ⟨fun h => ?_, fun h => ?_, fun p _ sc hsc => ?_⟩
  · unfold suggest_grade_from_materials
    rw [hacc, h]
    simp
  · unfold suggest_grade_from_materials
    rw [hacc]
    have hlen : ¬ (matchedScores mapping selected).length = 0 := by
      simpa [List.length_eq_zero] using h
    simp only [zero_add]
    rw [if_neg hlen]
    rfl
  · obtain ⟨subs, hsubs, hfind⟩ := Option.bind_eq_some.mp hsc
    obtain ⟨q, hq, hval⟩ := Option.map_eq_some'.mp hfind
    rw [← hval]
    exact quality_score_range q.2

/-- C7 witness: a mapping where the roof matches "Tile" (Good) and the
floor does not match; the suggestion is the bucket of the average. -/
theorem c7_witness :
    matchedScores c7mapping c7materials ≠ []
    ∧ suggest_grade_from_materials c7mapping c7materials
        = gradeBucket ((matchedScores c7mapping c7materials).sum
            / ((matchedScores c7mapping c7materials).length : ℚ)) :=
  ⟨by decide, (c7_suggest_grade c7mapping c7materials).2.1 (by decide)⟩

/-- C2: the full replacement cost of a generic-category building is
area × midpoint(grade Min, grade Max) × (floors + 1), with no floor
multiplier for Apartment / Condominium, and ×1.25 exactly with a
basement; the midpoint comes from the first rate row of the selected
building-type bracket. -/
theorem c2_full_replacement_cost (E : EngineData) (b : Building) (c g : String)
    (n : ℤ) (item : RateItem) (mn mx : ℚ)
    (hc : b.category.getD "Multi-Story Building" = c)
    (hn : b.num_floors.getD 1 = n)
    (hg : resolvedGrade E b c = g)
    (hitem : E.building_rates_data.find?
        (fun it => it.buildingType == (bracketFor c n).1) = some item)
    (hmm2 : dget? item.gradeRates g = some (mn, mx)) :
    fullReplacementCost? E b
      = some (resolvedArea b * ((mn + mx) / 2)
          * (if c = "Apartment / Condominium" then 1 else (n : ℚ) + 1)
          * (if b.has_basement.getD false then 1.25 else 1)) := by
  simp only [fullReplacementCost?]
  rw [hc, hn, hg]
  simp only [get_building_grade_rate?]
  rw [hitem]
  simp only [hmm2]
  rcases hb : b.has_basement.getD false <;>
    by_cases hca : c = "Apartment / Condominium" <;>
    simp [hb, hca] <;> ring

/-- C2 witness: a 2-floor Multi-Story building of 100 sqm with a
basement, graded Average against the G+1-and-G+2 bracket. -/
theorem c2_witness :
    fullReplacementCost? testE c2building
      = some (resolvedArea c2building * (((8000 : ℚ) + 12000) / 2)
          * (if "Multi-Story Building" = "Apartment / Condominium" then 1
             else ((2 : ℤ) : ℚ) + 1)
          * (if c2building.has_basement.getD false then 1.25 else 1)) :=
  c2_full_replacement_cost testE c2building "Multi-Story Building" "Average" 2
    ⟨"G+1 and G+2", [("Average", (8000, 12000)), ("Good", (12000, 16000))]⟩ 8000 12000
    rfl rfl rfl rfl rfl

/-- C8 (amended): a building whose category value is present but not one
of the seven recognized names takes none of the costing branches and
contributes a silent cost of 0 (it is skipped, no error is raised); only
a building with no category key at all is treated under the default
Multi-Story Building bracket. -/
theorem c8_unknown_category (E : EngineData) (i : ℕ) :
    (∀ (b : Building) (c : String), b.category = some c →
      c ∉ ["Higher Villa", "Multi-Story Building", "MPH & Factory Building",
           "Apartment / Condominium", "Fuel Station", "Coffee Washing Site",
           "Green House"] →
      buildingInfo? E i b = some (0, [], []))
    ∧ (∀ b : Building, b.category = none →
        buildingInfo? E i b
          = buildingInfo? E i { b with category := some "Multi-Story Building" }) := by
  constructor
  · intro b c h1 h2
    simp only [List.mem_cons, List.mem_singleton, not_or] at h2
    obtain ⟨n1, n2, n3, n4, n5, n6, n7, _⟩ := h2
    simp [buildingInfo?, h1, generic_categories, n1, n2, n3, n4, n5, n6, n7]
  · intro b h
    obtain ⟨nm, cat, len, wid, nf, hb2, iuc, ic, sm, cg, sc⟩ := b
    simp only at h
    subst h
    rfl

/-- C8 counterexample: a building with category "Warehouse" and a
100 sqm area is costed 0, not like the default Multi-Story bracket
(which would cost it 2,000,000 with the concrete rate table). -/
theorem c8_counterexample :
    buildingInfo? testE 0 warehouseBuilding = some (0, [], [])
    ∧ (buildingInfo? testE 0 msbBuilding).map (fun x => x.1) = some 2000000
    ∧ (buildingInfo? testE 0 warehouseBuilding).map (fun x => x.1)
        ≠ (buildingInfo? testE 0 msbBuilding).map (fun x => x.1) := by
  have h1 : buildingInfo? testE 0 warehouseBuilding = some (0, [], []) := rfl
  have h2 : (buildingInfo? testE 0 msbBuilding).map (fun x => x.1)
      = some ((100 : ℚ) * ((8000 + 12000) / 2) * (((1 : ℤ) : ℚ) + 1)) := rfl
  refine ⟨h1, ?_, ?_⟩
  · rw [h2]; norm_num
  · rw [h1, h2]; norm_num

/-- C8 witness: the Warehouse building instantiates the amended claim. -/
theorem c8_witness :
    warehouseBuilding.category = some "Warehouse"
    ∧ "Warehouse" ∉ ["Higher Villa", "Multi-Story Building", "MPH & Factory Building",
        "Apartment / Condominium", "Fuel Station", "Coffee Washing Site", "Green House"]
    ∧ buildingInfo? testE 0 warehouseBuilding = some (0, [], []) :=
  ⟨rfl, by decide,
   (c8_unknown_category testE 0).1 warehouseBuilding "Warehouse" rfl (by decide)⟩

end Collateral

namespace Collateral

set_option maxRecDepth 10000

theorem dget?_dset_self [DecidableEq κ] (l : List (κ × α)) (k : κ) (v : α) :
    dget? (dset l k v) k = some v := by
  induction l with
  | nil => simp [dset, dget?]
  | cons p t ih =>
    obtain ⟨k2, w⟩ := p
    by_cases h : k2 = k <;> simp [dset, dget?, h, ih]

theorem dget?_dset_ne [DecidableEq κ] (l : List (κ × α)) (k k' : κ) (v : α)
    (h : k ≠ k') : dget? (dset l k v) k' = dget? l k' := by
  induction l with
  | nil => simp [dset, dget?, h]
  | cons p t ih =>
    obtain ⟨k2, w⟩ := p
    by_cases h2 : k2 = k
    · subst h2
      simp [dset, dget?, h]
    · by_cases h3 : k2 = k' <;> simp [dset, dget?, h2, h3, Ne.symm h, ih]

theorem mem_removeFirst [DecidableEq α] (l : List α) (x y : α)
    (h : y ∈ removeFirst l x) : y ∈ l := by
  induction l with
  | nil => simpa [removeFirst] using h
  | cons a t ih =>
    by_cases ha : a = x
    · simp only [removeFirst, if_pos ha] at h
      exact List.mem_cons_of_mem a h
    · simp only [removeFirst, if_neg ha, List.mem_cons] at h
      rcases h with h | h
      · exact h ▸ List.mem_cons_self a t
      · exact List.mem_cons_of_mem a (ih h)

theorem not_mem_filter_ne (l : List String) (a : String) :
    a ∉ l.filter (fun s => decide (s ≠ a)) := by
  simp [List.mem_filter]

theorem mem_categorySuppression (s1 : Slots) (needed : List String) (x : String)
    (h : x ∈ categorySuppression s1 needed) : x ∈ needed := by
  unfold categorySuppression at h
  by_cases h1 : dgetD s1 "building_category" PyVal.pynone
      = PyVal.str "MPH & Factory Building"
  · rw [if_pos h1] at h
    replace h := (List.mem_filter.mp h).1
    by_cases h2 : dgetD s1 "building_category" PyVal.pynone
        = PyVal.str "Apartment / Condominium"
    · rw [if_pos h2] at h
      exact (List.mem_filter.mp h).1
    · rwa [if_neg h2] at h
  · rw [if_neg h1] at h
    by_cases h2 : dgetD s1 "building_category" PyVal.pynone
        = PyVal.str "Apartment / Condominium"
    · rw [if_pos h2] at h
      exact (List.mem_filter.mp h).1
    · rwa [if_neg h2] at h

theorem mem_conditionalSuppression (s1 : Slots) (needed : List String) (x : String)
    (h : x ∈ conditionalSuppression s1 needed) : x ∈ needed := by
  unfold conditionalSuppression at h
  repeat' split at h
  all_goals simp only [List.mem_filter] at h
  all_goals tauto

theorem mem_sectionRemoval? (s1 : Slots) (needed l : List String) (x : String)
    (h : sectionRemoval? s1 needed = some l) (hx : x ∈ l) : x ∈ needed := by
  unfold sectionRemoval? at h
  repeat' split at h
  all_goals first
    | (cases h; exact hx)
    | cases h
    | (simp only [Option.bind_eq_some, Option.map_eq_some'] at h
       obtain ⟨n, hn, lt, hlt, rfl⟩ := h
       split at hx
       · exact mem_removeFirst _ _ _ hx
       · exact hx)

theorem msc_mem (s1 : Slots) (req l : List String)
    (h : missing_slots_core s1 req = some l) :
    ∀ x ∈ l, x ∈ req ∧ dmem s1 x = false := by
  intro x hx
  unfold missing_slots_core at h
  have h1 := mem_sectionRemoval? s1 _ l x h hx
  have h2 := mem_conditionalSuppression s1 _ x h1
  have h3 := mem_categorySuppression s1 _ x h2
  have h4 := List.mem_filter.mp h3
  exact ⟨h4.1, by simpa using h4.2⟩

theorem conditionalSuppression_elevator (s1 : Slots) (needed : List String)
    (hv : dget? s1 "has_elevator" = some (.pybool false)) :
    "elevator_stops" ∉ conditionalSuppression s1 needed := by
  intro hmem
  unfold conditionalSuppression at hmem
  rw [hv] at hmem
  simp only [pyTruthy, Bool.false_eq_true, if_false] at hmem
  repeat' split at hmem
  all_goals simp_all [List.mem_filter]

theorem conditionalSuppression_under (s1 : Slots) (needed : List String)
    (hv : dget? s1 "is_under_construction" = some (.pybool false)) :
    "incomplete_components" ∉ conditionalSuppression s1 needed := by
  intro hmem
  unfold conditionalSuppression at hmem
  rw [hv] at hmem
  simp only [pyTruthy, Bool.false_eq_true, if_false] at hmem
  repeat' split at hmem
  all_goals simp_all [List.mem_filter]

end Collateral

namespace Collateral

theorem crs_lookup (mm : String → List String) (slots : Slots)
    (rs : List String × Slots) (h : current_required_slots mm slots = some rs)
    (k : String) (hk : k ≠ "gen_use") : dget? rs.2 k = dget? slots k := by
  simp only [current_required_slots, bind, Option.bind_eq_some, pure,
    Option.some.injEq] at h
  obtain ⟨coll, hcoll, h⟩ := h
  split at h
  · obtain rfl := Option.some.inj h
    rfl
  · split at h
    · split at h
      · obtain rfl := Option.some.inj h
        rfl
      · cases h
    · split at h
      · simp only [Option.bind_eq_some, Option.some.injEq] at h
        obtain ⟨comps, hcomps, rfl⟩ := h
        by_cases hmph :
            dgetD slots "building_category" PyVal.pynone
              = PyVal.str "MPH & Factory Building"
        · rw [if_pos hmph]
          exact dget?_dset_ne slots "gen_use" k _ (Ne.symm hk)
        · rw [if_neg hmph]
      · obtain rfl := Option.some.inj h
        by_cases hmph :
            dgetD slots "building_category" PyVal.pynone
              = PyVal.str "MPH & Factory Building"
        · rw [if_pos hmph]
          exact dget?_dset_ne slots "gen_use" k _ (Ne.symm hk)
        · rw [if_neg hmph]

theorem ms_parts (mm : String → List String) (slots : Slots)
    (ms : List String × Slots) (h : missing_slots mm slots = some ms) :
    ms = ([], slots)
    ∨ ∃ rs, current_required_slots mm slots = some rs
        ∧ ms.2 = rs.2 ∧ missing_slots_core rs.2 rs.1 = some ms.1 := by
  simp only [missing_slots, bind, Option.bind_eq_some, pure, Option.some.injEq] at h
  obtain ⟨coll, hcoll, h⟩ := h
  split at h
  · exact Or.inl (Option.some.inj h).symm
  · right
    cases hrs : current_required_slots mm slots with
    | none => rw [hrs] at h; cases h
    | some rs =>
      rw [hrs] at h
      simp only [Option.some_bind] at h
      obtain ⟨l, hcore, hms⟩ := Option.map_eq_some'.mp h
      subst hms
      exact ⟨rs, rfl, rfl, hcore⟩

theorem ms_lookup (mm : String → List String) (slots : Slots)
    (ms : List String × Slots) (h : missing_slots mm slots = some ms)
    (k : String) (hk : k ≠ "gen_use") : dget? ms.2 k = dget? slots k := by
  rcases ms_parts mm slots ms h with rfl | ⟨rs, hrs, hs2, _⟩
  · rfl
  · rw [hs2]
    exact crs_lookup mm slots rs hrs k hk

/-- C9: for every category and slot map on which missing_slots succeeds,
the computed missing list never contains elevator_stops when the slots
record has_elevator = False, and never contains incomplete_components
when they record is_under_construction = False. -/
theorem c9_conditional_suppression (mm : String → List String) (slots : Slots)
    (l : List String) (s2 : Slots)
    (hms : missing_slots mm slots = some (l, s2)) :
    (dget? slots "has_elevator" = some (.pybool false) → "elevator_stops" ∉ l)
    ∧ (dget? slots "is_under_construction" = some (.pybool false) →
        "incomplete_components" ∉ l) := by
  rcases ms_parts mm slots (l, s2) hms with heq | ⟨rs, hrs, hs2, hcore⟩
  · simp only [Prod.mk.injEq] at heq
    obtain ⟨rfl, rfl⟩ := heq
    exact ⟨fun _ h => absurd h (List.not_mem_nil _),
           fun _ h => absurd h (List.not_mem_nil _)⟩
  · constructor <;> intro hv hmem
    · have hv2 : dget? rs.2 "has_elevator" = some (.pybool false) := by
        rw [crs_lookup mm slots rs hrs "has_elevator" (by decide)]
        exact hv
      unfold missing_slots_core at hcore
      exact conditionalSuppression_elevator rs.2 _ hv2
        (mem_sectionRemoval? rs.2 _ l _ hcore hmem)
    · have hv2 : dget? rs.2 "is_under_construction" = some (.pybool false) := by
        rw [crs_lookup mm slots rs hrs "is_under_construction" (by decide)]
        exact hv
      unfold missing_slots_core at hcore
      exact conditionalSuppression_under rs.2 _ hv2
        (mem_sectionRemoval? rs.2 _ l _ hcore hmem)

end Collateral

namespace Collateral

/-- C5: when the user answers "no" at the confirmation step, the
confirmation flag is stored as False and the cancel message — not a
valuation report — is appended; on the resulting state the dispatcher
can only route to ASK or CONFIRM (never CALC), and whenever slots are
still missing it routes back to collection (ASK). -/
theorem c5_reject_confirmation (st : AgentState) (last : Msg)
    (hlast : st.messages.getLast? = some last)
    (hno : strLower (strTrim last.content) = "no") :
    (process_confirmation_node st).slots = dset st.slots "_confirmed" (.pybool false)
    ∧ (process_confirmation_node st).messages
        = st.messages ++ [Msg.assistant "❌ Valuation cancelled. Type \x27quit\x27 or start over."]
    ∧ dget? (process_confirmation_node st).slots "_confirmed" = some (.pybool false)
    ∧ (∀ mm r s2, should_calculate mm (process_confirmation_node st) = some (r, s2) →
        r = "ASK" ∨ r = "CONFIRM")
    ∧ (∀ mm l s2, missing_slots mm (process_confirmation_node st).slots = some (l, s2) →
        l ≠ [] → should_calculate mm (process_confirmation_node st) = some ("ASK", s2)) := by
  have hstv : process_confirmation_node st
      = { st with
          slots := dset st.slots "_confirmed" (.pybool false)
          messages := st.messages ++
            [Msg.assistant "❌ Valuation cancelled. Type \x27quit\x27 or start over."] } := by
    unfold process_confirmation_node
    rw [hlast]
    simp only [hno]
    rw [if_neg (by decide), if_pos (by decide)]
  rw [hstv]
  refine ⟨rfl, rfl, dget?_dset_self _ _ _, ?_, ?_⟩
  · intro mm r s2 h
    simp only [should_calculate, bind, Option.bind_eq_some, pure,
      Option.some.injEq] at h
    obtain ⟨coll, hcoll, h⟩ := h
    split at h
    · obtain ⟨h1, _⟩ := Prod.mk.injEq .. |>.mp (Option.some.inj h)
      exact Or.inl h1.symm
    · cases hms2 : missing_slots mm (dset st.slots "_confirmed" (.pybool false)) with
      | none => rw [hms2] at h; cases h
      | some ms =>
        rw [hms2] at h
        simp only [Option.some_bind] at h
        split at h
        · obtain ⟨h1, _⟩ := Prod.mk.injEq .. |>.mp (Option.some.inj h)
          exact Or.inl h1.symm
        · split at h
          · obtain ⟨h1, _⟩ := Prod.mk.injEq .. |>.mp (Option.some.inj h)
            exact Or.inl h1.symm
          · split at h
            · obtain ⟨h1, _⟩ := Prod.mk.injEq .. |>.mp (Option.some.inj h)
              exact Or.inr h1.symm
            · exfalso
              rename_i htruthy
              have hc : dget? ms.2 "_confirmed" = some (.pybool false) := by
                rw [ms_lookup mm _ ms hms2 "_confirmed" (by decide)]
                exact dget?_dset_self _ _ _
              rw [dgetD, hc] at htruthy
              simp [pyTruthy] at htruthy
  · intro mm l s2' hms0 hl
    replace hms0 : missing_slots mm (dset st.slots "_confirmed" (.pybool false))
        = some (l, s2') := hms0
    have hex := hms0
    simp only [missing_slots, bind, Option.bind_eq_some, pure] at hms0
    obtain ⟨coll, hcoll, hms1⟩ := hms0
    by_cases hcar : coll = "car"
    · rw [if_pos hcar] at hms1
      obtain ⟨h1, _⟩ := Prod.mk.injEq .. |>.mp (Option.some.inj hms1)
      exact absurd h1.symm hl
    · show should_calculate mm
        { st with
          slots := dset st.slots "_confirmed" (.pybool false)
          messages := st.messages ++
            [Msg.assistant "❌ Valuation cancelled. Type \x27quit\x27 or start over."] }
        = some ("ASK", s2')
      simp only [should_calculate, bind, pure]
      rw [hcoll]
      simp only [Option.some_bind]
      rw [if_neg hcar, hex]
      simp only [Option.some_bind]
      by_cases hsec : "section_dimensions" ∈ l
      · rw [if_pos hsec]
      · rw [if_neg hsec, if_pos hl]

end Collateral




namespace Collateral

theorem mem_dedupKeepAux [DecidableEq α] (l seen : List α) (y : α)
    (h : y ∈ dedupKeepAux seen l) : y ∈ l := by
  induction l generalizing seen with
  | nil => simpa [dedupKeepAux] using h
  | cons x t ih =>
    by_cases hx : x ∈ seen
    · simp only [dedupKeepAux, if_pos hx] at h
      exact List.mem_cons_of_mem x (ih seen h)
    · simp only [dedupKeepAux, if_neg hx] at h
      rcases List.mem_cons.mp h with rfl | h2
      · exact List.mem_cons_self _ _
      · exact List.mem_cons_of_mem x (ih (x :: seen) h2)

theorem dedupKeepAux_spec [DecidableEq α] (l seen : List α) :
    (dedupKeepAux seen l).Nodup ∧ ∀ y ∈ dedupKeepAux seen l, y ∉ seen := by
  induction l generalizing seen with
  | nil => exact ⟨List.nodup_nil, by simp [dedupKeepAux]⟩
  | cons x t ih =>
    by_cases hx : x ∈ seen
    · simp only [dedupKeepAux, if_pos hx]
      exact ih seen
    · simp only [dedupKeepAux, if_neg hx]
      obtain ⟨hnd, hns⟩ := ih (x :: seen)
      refine ⟨List.nodup_cons.mpr ⟨fun hmem => hns x hmem (List.mem_cons_self x seen), hnd⟩, ?_⟩
      intro y hy
      rcases List.mem_cons.mp hy with rfl | hy2
      · exact hx
      · intro hys
        exact hns y hy2 (List.mem_cons_of_mem x hys)

theorem dedupKeep_nodup [DecidableEq α] (l : List α) : (dedupKeep l).Nodup :=
  (dedupKeepAux_spec l []).1

theorem mem_dedupKeep [DecidableEq α] (l : List α) (y : α)
    (h : y ∈ dedupKeep l) : y ∈ l := mem_dedupKeepAux l [] y h

theorem nodup_append_single (l : List String) (a : String) (hnd : l.Nodup)
    (ha : a ∉ l) : (l ++ [a]).Nodup := by
  simp [List.nodup_append, hnd, ha, List.disjoint_singleton]

/-- The required-slot list built by current_required_slots has no
duplicates: every branch returns either the empty list or a dedupKeep. -/
theorem crs_fst_nodup (mm : String → List String) (slots : Slots)
    (rs : List String × Slots) (h : current_required_slots mm slots = some rs) :
    rs.1.Nodup := by
  simp only [current_required_slots, bind, Option.bind_eq_some, pure,
    Option.some.injEq] at h
  obtain ⟨coll, hcoll, h⟩ := h
  split at h
  · obtain rfl := Option.some.inj h
    exact List.nodup_nil
  · split at h
    · split at h
      · obtain rfl := Option.some.inj h
        exact dedupKeep_nodup _
      · cases h
    · split at h
      · simp only [Option.bind_eq_some, Option.some.injEq] at h
        obtain ⟨comps, hcomps, rfl⟩ := h
        exact dedupKeep_nodup _
      · obtain rfl := Option.some.inj h
        exact dedupKeep_nodup _

/-- In a special category, every required slot is one of the special
base slots or the category-specific slots. -/
theorem crs_fst_special_mem (mm : String → List String) (slots : Slots)
    (rs : List String × Slots) (c : String)
    (h : current_required_slots mm slots = some rs)
    (hcat : dgetD slots "building_category" PyVal.pynone = PyVal.str c)
    (hc : c ∈ SPECIAL_CATEGORIES)
    (x : String) (hx : x ∈ rs.1) :
    x ∈ SPECIAL_CATEGORY_BASE_SLOTS ++ dgetD CATEGORY_SPECIAL_SLOTS c [] := by
  simp only [current_required_slots, bind, Option.bind_eq_some, pure,
    Option.some.injEq] at h
  obtain ⟨coll, hcoll, h⟩ := h
  split at h
  · obtain rfl := Option.some.inj h
    cases hx
  · rw [hcat] at h
    split at h
    · rename_i hsp
      simp only [Option.some.injEq] at h
      obtain rfl := h
      replace hx := mem_dedupKeep _ _ hx
      split at hx
      · split at hx
        · exact mem_removeFirst _ _ _ (mem_removeFirst _ _ _ hx)
        · exact mem_removeFirst _ _ _ hx
      · split at hx
        · exact mem_removeFirst _ _ _ hx
        · exact hx
    · rename_i hsp
      exact absurd hc (by simpa using hsp)

end Collateral

namespace Collateral

set_option maxRecDepth 10000

/-- C3: the section loop is broken. In a session that declares two
sections for a Multi-Story Building and then answers every prompt, the
placeholder is treated as satisfied after a single length answer: the
run ends having asked section_dimensions exactly once, with a single
half-record holding only a length stored (awaiting_width still
pending), the cursor key never created, the placeholder no longer
missing, and the dialogue already moved on to mcf — the user was never
asked the width of section 1 nor anything of section 2. -/
theorem c3_section_loop_broken :
    (runStart c3inputs).map (fun st => st.asked.getLast?) = some (some "mcf")
    ∧ (runStart c3inputs).map (fun st => st.asked.count "section_dimensions") = some 1
    ∧ (runStart c3inputs).map (fun st => dget? st.slots "num_sections")
        = some (some (.str "2"))
    ∧ (runStart c3inputs).map (fun st =>
          match dget? st.slots "section_dimensions" with
          | some (.seclist secs) => some (secs.map (fun sec => sec.map Prod.fst))
          | _ => none)
        = some (some [["length"]])
    ∧ (runStart c3inputs).map (fun st => dmem st.slots "section_index") = some false
    ∧ (runStart c3inputs).map (fun st => dget? st.slots "awaiting_width")
        = some (some (.pybool true))
    ∧ (runStart c3inputs).map (fun st => (missing_slots mmNone st.slots).map
          (fun ms => decide ("section_dimensions" ∈ ms.1)))
        = some (some false) :=
  ⟨by decide, by decide, by decide, by decide, by decide, by decide, by decide⟩

/-- C4 counterexample: the MPH height redirect re-asks height_meters
after a stale pending-choice swallowed the free-text answer, so the
asked list of this reachable session holds height_meters twice. -/
theorem c4_asked_duplicate :
    (runStart c4inputs).map (fun st =>
        (st.asked.count "height_meters", decide st.asked.Nodup))
      = some (2, false) := by
  decide

/-- C4 (amended): ask_next_question_node preserves distinctness of the
asked list on states whose slots hold no section cursor and whose
category is not MPH & Factory Building (the stale cursor and the height
redirect are exactly the two ways a name is re-asked). -/
theorem c4_ask_preserves_nodup (mm : String → List String) (st st2 : AgentState)
    (hnd : st.asked.Nodup)
    (hsec : dget? st.slots "section_index" = none)
    (hcat : dgetD st.slots "building_category" PyVal.pynone
      ≠ PyVal.str "MPH & Factory Building")
    (h : ask_next_question_node mm st = some st2) :
    st2.asked.Nodup := by
  simp only [ask_next_question_node, bind, Option.bind_eq_some, pure,
    Option.some.injEq] at h
  obtain ⟨ms, hms, h⟩ := h
  have hsec2 : dget? ms.2 "section_index" = none := by
    rw [ms_lookup mm st.slots ms hms "section_index" (by decide)]
    exact hsec
  have hcat2 : dgetD ms.2 "building_category" PyVal.pynone
      = dgetD st.slots "building_category" PyVal.pynone := by
    unfold dgetD
    rw [ms_lookup mm st.slots ms hms "building_category" (by decide)]
  split at h
  · split at h
    · rename_i hcond
      obtain rfl := Option.some.inj h
      exact nodup_append_single _ _ hnd hcond.2
    · simp only [bind, Option.bind_eq_some, pure, Option.some.injEq] at h
      obtain ⟨coll, hcoll, h⟩ := h
      split at h
      · simp only [bind, Option.bind_eq_some, pure, Option.some.injEq] at h
        obtain ⟨rs, hrs, h⟩ := h
        obtain rfl := h
        exact crs_fst_nodup mm ms.2 rs hrs
      · simp only [bind, Option.bind_eq_some, pure, Option.some.injEq] at h
        obtain ⟨inLoop, hinL, h⟩ := h
        simp only [hsec2, Option.some.injEq] at hinL
        obtain rfl := hinL
        simp only [Bool.false_eq_true, if_false] at h
        split at h
        · obtain rfl := Option.some.inj h
          exact hnd
        · rename_i s0 heq
          simp only [bind, Option.bind_eq_some, pure, Option.some.injEq] at h
          obtain ⟨rq, hrq, h⟩ := h
          obtain rfl := h
          have hs0mem := List.mem_of_mem_head? (Option.mem_def.mpr heq)
          have hs0 : s0 ∈ ms.1 ∧ s0 ∉ st.asked := by
            first
              | exact (fun h2 => ⟨h2.1, of_decide_eq_true h2.2⟩)
                  (List.mem_filter.mp (List.mem_filter.mp hs0mem).1)
              | exact (fun h2 => ⟨h2.1, of_decide_eq_true h2.2⟩)
                  (List.mem_filter.mp hs0mem)
          show (st.asked ++ [_]).Nodup
          split
          · rename_i hmph
            exact absurd (hcat2.symm.trans hmph.1) hcat
          · split
            · rename_i c heqc
              have hstc : dgetD st.slots "building_category" PyVal.pynone
                  = PyVal.str c := hcat2.symm.trans heqc
              split
              · rename_i hcnd
                exfalso
                rcases ms_parts mm st.slots ms hms with hpair | ⟨rs, hrs, hss, hcore⟩
                · rw [hpair] at hs0
                  exact absurd hs0.1 (List.not_mem_nil s0)
                · have hs0r := (msc_mem rs.2 rs.1 ms.1 hcore s0 hs0.1).1
                  exact hcnd.2 (crs_fst_special_mem mm st.slots rs c hrs hstc hcnd.1 s0 hs0r)
              · exact nodup_append_single _ _ hnd hs0.2
            · exact nodup_append_single _ _ hnd hs0.2
  · split at h
    · rename_i hcond
      obtain rfl := Option.some.inj h
      exact nodup_append_single _ _ hnd hcond.2
    · simp only [bind, Option.bind_eq_some, pure, Option.some.injEq] at h
      obtain ⟨coll, hcoll, h⟩ := h
      split at h
      · simp only [bind, Option.bind_eq_some, pure, Option.some.injEq] at h
        obtain ⟨rs, hrs, h⟩ := h
        obtain rfl := h
        exact crs_fst_nodup mm ms.2 rs hrs
      · simp only [bind, Option.bind_eq_some, pure, Option.some.injEq] at h
        obtain ⟨inLoop, hinL, h⟩ := h
        simp only [hsec2, Option.some.injEq] at hinL
        obtain rfl := hinL
        simp only [Bool.false_eq_true, if_false] at h
        split at h
        · obtain rfl := Option.some.inj h
          exact hnd
        · rename_i s0 heq
          simp only [bind, Option.bind_eq_some, pure, Option.some.injEq] at h
          obtain ⟨rq, hrq, h⟩ := h
          obtain rfl := h
          have hs0mem := List.mem_of_mem_head? (Option.mem_def.mpr heq)
          have hs0 : s0 ∈ ms.1 ∧ s0 ∉ st.asked := by
            first
              | exact (fun h2 => ⟨h2.1, of_decide_eq_true h2.2⟩)
                  (List.mem_filter.mp (List.mem_filter.mp hs0mem).1)
              | exact (fun h2 => ⟨h2.1, of_decide_eq_true h2.2⟩)
                  (List.mem_filter.mp hs0mem)
          show (st.asked ++ [_]).Nodup
          split
          · rename_i hmph
            exact absurd (hcat2.symm.trans hmph.1) hcat
          · split
            · rename_i c heqc
              have hstc : dgetD st.slots "building_category" PyVal.pynone
                  = PyVal.str c := hcat2.symm.trans heqc
              split
              · rename_i hcnd
                exfalso
                rcases ms_parts mm st.slots ms hms with hpair | ⟨rs, hrs, hss, hcore⟩
                · rw [hpair] at hs0
                  exact absurd hs0.1 (List.not_mem_nil s0)
                · have hs0r := (msc_mem rs.2 rs.1 ms.1 hcore s0 hs0.1).1
                  exact hcnd.2 (crs_fst_special_mem mm st.slots rs c hrs hstc hcnd.1 s0 hs0r)
              · exact nodup_append_single _ _ hnd hs0.2
            · exact nodup_append_single _ _ hnd hs0.2

/-- C4 witness: the opening question of a fresh session instantiates the
amended distinctness preservation. -/
theorem c4_witness : c4wSt.asked.Nodup :=
  c4_ask_preserves_nodup mmNone initial_state c4wSt List.nodup_nil rfl
    (by decide) (by decide)

/-- C5 witness: a session whose last message is the user reply "no"
instantiates the rejection transition: the confirmation flag is set to
False and the cancel message (not a report) is appended. -/
theorem c5_witness :
    (process_confirmation_node c5state).slots
        = dset c5state.slots "_confirmed" (.pybool false)
    ∧ dget? (process_confirmation_node c5state).slots "_confirmed"
        = some (.pybool false) := by
  have h := c5_reject_confirmation c5state (Msg.user "no") rfl (by decide)
  exact ⟨h.1, h.2.2.1⟩

/-- C9 witness: on a concrete slot map recording has_elevator = False
and is_under_construction = False, the computed missing list contains
neither elevator_stops nor incomplete_components. -/
theorem c9_witness :
    "elevator_stops" ∉ c9missing ∧ "incomplete_components" ∉ c9missing := by
  have h := c9_conditional_suppression mmNone c9slots c9missing c9slots (by decide)
  exact ⟨h.1 (by decide), h.2 (by decide)⟩

/-- C10 (amended): once the slots hold the stale cursor
section_index = None (as they do after a completed length/width section
loop), every later call of ask_next_question_node raises the TypeError
of `None < int(num_sections)` instead of asking a question: the
embedding returns none, so the error branch is reachable, not
unreachable. -/
theorem c10_stale_none_cursor (mm : String → List String) (st : AgentState)
    (hsec : dget? st.slots "section_index" = some PyVal.pynone)
    (hcoll : dget? st.slots "collateral_type" = some (PyVal.str "House")) :
    ask_next_question_node mm st = none := by
  cases hms : missing_slots mm st.slots with
  | none =>
    unfold ask_next_question_node
    rw [hms]
    rfl
  | some ms =>
    have hsec2 : dget? ms.2 "section_index" = some PyVal.pynone := by
      rw [ms_lookup mm st.slots ms hms "section_index" (by decide)]
      exact hsec
    have hmc : dget? ms.2 "collateral_type" = some (PyVal.str "House") := by
      rw [ms_lookup mm st.slots ms hms "collateral_type" (by decide)]
      exact hcoll
    have hnm : "collateral_type" ∉ ms.1 := by
      rcases ms_parts mm st.slots ms hms with hpair | ⟨rs, hrs, hss, hcore⟩
      · rw [hpair]
        exact List.not_mem_nil _
      · intro hx
        have hd := (msc_mem rs.2 rs.1 ms.1 hcore _ hx).2
        rw [← hss, dmem, hmc] at hd
        cases hd
    have hcl : collateralLowerOf? ms.2 = some "house" := by
      unfold collateralLowerOf? dgetD
      rw [hmc]
      rfl
    simp only [ask_next_question_node, bind, hms, Option.some_bind]
    split
    · split
      · rename_i hcond
        exfalso
        first
          | exact hnm (List.mem_filter.mp (List.mem_filter.mp hcond.1).1).1
          | exact hnm (List.mem_filter.mp hcond.1).1
      · rw [hcl, Option.some_bind, if_neg (by decide : ¬("house" = "car"))]
        simp only [hsec2]
        cases hpi : pyIntOf? (dgetD ms.2 "num_sections" (PyVal.num 1)) with
        | none => simp only [hpi, Option.none_bind]
        | some n =>
          simp only [hpi, Option.some_bind]
          rfl
    · split
      · rename_i hcond
        exfalso
        first
          | exact hnm (List.mem_filter.mp (List.mem_filter.mp hcond.1).1).1
          | exact hnm (List.mem_filter.mp hcond.1).1
      · rw [hcl, Option.some_bind, if_neg (by decide : ¬("house" = "car"))]
        simp only [hsec2]
        cases hpi : pyIntOf? (dgetD ms.2 "num_sections" (PyVal.num 1)) with
        | none => simp only [hpi, Option.none_bind]
        | some n =>
          simp only [hpi, Option.some_bind]
          rfl

/-- C10 counterexample: the width answer that completes the single
declared section leaves section_index bound to None in the stored
slots, and the very next call of ask_next_question_node on that state
errors (none) rather than asking anything. -/
theorem c10_counterexample :
    (extract_info_node c10pre).map (fun st => dget? st.slots "section_index")
        = some (some PyVal.pynone)
    ∧ (extract_info_node c10pre).bind (ask_next_question_node mmNone) = none :=
  ⟨by decide, by decide⟩

/-- C10 witness: the post-loop state instantiates the amended claim. -/
theorem c10_witness : ask_next_question_node mmNone c10post = none :=
  c10_stale_none_cursor mmNone c10post (by decide) (by decide)

end Collateral
